import Mathlib

/-!
Verification development for the SnowBrawl arena-combat core
(`src/js/physics.js`, `src/js/player.js`, `src/js/snowball.js`,
`js/constants.js`).

The JavaScript source is shallowly embedded over exact rationals (`ℚ`).
JavaScript numbers are IEEE doubles; every comparison the embedded code
performs is modelled exactly, and comparisons of Euclidean distances
`sqrt d < t` (with both sides nonnegative in every state the source
constructs) are embedded as the algebraically equivalent `d < t * t`, so
that all definitions stay executable.  `THREE.Vector3.normalize` divides
a vector by its length; the length is irrational in general, so the
embedding computes it with `ratSqrt`, which is exact whenever the squared
length is the square of a rational (in particular on every axis-aligned
vector).  The normalised vector is only ever written into velocity
components, which no theorem below reads back.
-/

namespace SnowBrawl

/-- `THREE.Vector3`: a 3-component vector of (exact) numbers. -/
structure Vec3 where
  x : ℚ
  y : ℚ
  z : ℚ
deriving DecidableEq, Repr

def Vec3.addV (a b : Vec3) : Vec3 := ⟨a.x + b.x, a.y + b.y, a.z + b.z⟩

def Vec3.subV (a b : Vec3) : Vec3 := ⟨a.x - b.x, a.y - b.y, a.z - b.z⟩

def Vec3.scaleV (c : ℚ) (a : Vec3) : Vec3 := ⟨c * a.x, c * a.y, c * a.z⟩

def Vec3.dotV (a b : Vec3) : ℚ := a.x * b.x + a.y * b.y + a.z * b.z

/-- Squared Euclidean distance; `a.distanceTo(b)` in the source is its
square root, and every use below compares it with a nonnegative
threshold, so the squared form is exact. -/
def Vec3.distSq (a b : Vec3) : ℚ := Vec3.dotV (Vec3.subV a b) (Vec3.subV a b)

/-- Exact square root on rationals: correct whenever the argument is the
square of a rational (numerator and denominator both perfect squares),
which covers every use a theorem below depends on. -/
def ratSqrt (q : ℚ) : ℚ := (Nat.sqrt q.num.toNat : ℚ) / (Nat.sqrt q.den : ℚ)

/-- `THREE.Vector3.normalize`: divide by the length (`divideScalar(length || 1)`
leaves the zero vector unchanged). -/
def Vec3.normalizeV (a : Vec3) : Vec3 :=
  let l := ratSqrt (Vec3.dotV a a)
  if l = 0 then a else Vec3.scaleV (1 / l) a

/-- The five upgradeable stats of `GAME_CONSTANTS.UPGRADES`. -/
inductive UpgradeType where
  | speed | damage | range | size | capacity
deriving DecidableEq, Repr

/- Game constants from `js/constants.js` (`SnowBrawlConstants`). -/
namespace GC

def PHYSICS_GRAVITY : ℚ := 98/10

def SAFE_ZONE_RADIUS : ℚ := 5

def KNOCKBACK_FORCE : ℚ := 2

def ELIMINATION_POINTS : ℚ := 100

def INITIAL_HEALTH : ℚ := 10

def MAP_WIDTH : ℚ := 80

def MAP_LENGTH : ℚ := 80

def AIR_RESISTANCE : ℚ := 1/100

def SNOWBALL_LIFETIME : ℚ := 9000

def upgradeCost (_ : UpgradeType) : ℚ := 1

def upgradeMaxLevel : UpgradeType → ℕ
  | .speed => 5
  | .damage => 3
  | .range => 3
  | .size => 3
  | .capacity => 3

def upgradeIncrement : UpgradeType → ℚ
  | .speed => 1/2
  | .damage => 1
  | .range => 5
  | .size => 1/20
  | .capacity => 5

end GC

/-- Per-stat upgrade levels (`this.upgrades` in `player.js`). -/
structure Upgrades where
  speed : ℕ
  damage : ℕ
  range : ℕ
  size : ℕ
  capacity : ℕ
deriving DecidableEq, Repr

def Upgrades.level (u : Upgrades) : UpgradeType → ℕ
  | .speed => u.speed
  | .damage => u.damage
  | .range => u.range
  | .size => u.size
  | .capacity => u.capacity

/-- `SnowBrawlPlayer` (`src/js/player.js`), restricted to the fields the
physics/combat/upgrade code reads or writes. -/
structure Player where
  id : String
  isHuman : Bool
  position : Vec3
  velocity : Vec3
  moveSpeed : ℚ
  height : ℚ
  radius : ℚ
  health : ℚ
  snowballCount : ℚ
  maxSnowballCount : ℚ
  diamondCount : ℚ
  score : ℚ
  snowballDamage : ℚ
  snowballSize : ℚ
  throwRange : ℚ
  isAlive : Bool
  isOnGround : Bool
  iglooPosition : Option Vec3
  upgrades : Upgrades
deriving DecidableEq, Repr

/-- `SnowBrawlSnowball` (`src/js/snowball.js`), restricted to the fields
that physics and the lifecycle code use.  `elapsedMs` stands for
`Date.now() - this.creationTime`: in the tick model the wall clock
advances by `deltaTime * 1000` milliseconds per tick. -/
structure Snowball where
  position : Vec3
  velocity : Vec3
  initialPosition : Vec3
  ownerId : String
  damage : ℚ
  radius : ℚ
  maxDistance : ℚ
  lifetime : ℚ
  elapsedMs : ℚ
  hasHit : Bool
deriving DecidableEq, Repr

/-- `SnowBrawlPhysics.isPointInSafeZone(point, player)` (`physics.js:749`):
true iff the player has an igloo anchor and the squared horizontal
distance from `point` to it is at most `SAFE_ZONE_RADIUS²`.  Note the
anchor tested is always the argument player's own igloo. -/
def isPointInSafeZone (point : Vec3) (p : Player) : Bool :=
  match p.iglooPosition with
  | none => false
  | some igloo =>
    let dx := point.x - igloo.x
    let dz := point.z - igloo.z
    decide (dx * dx + dz * dz ≤ GC.SAFE_ZONE_RADIUS * GC.SAFE_ZONE_RADIUS)

/-- `SnowBrawlPhysics.isPlayerInSafeZone(player)` (`physics.js:770`). -/
def isPlayerInSafeZone (p : Player) : Bool :=
  isPointInSafeZone p.position p

/-- The agent registry (`GameClass.player` followed by
`GameClass.aiPlayers`, the same objects `physics.colliders.players`
holds). -/
abbrev Registry := List Player

/-- `Game.getPlayerById(id)` (`game.js`): first registered player with the
given id. -/
def getPlayerById (ps : Registry) (i : String) : Option Player :=
  List.find? (fun p => p.id == i) ps

/-- Mutation of the one (first) registry object with the given id;
models in-place mutation of the object `getPlayerById` returns. -/
def updateFirst (ps : Registry) (i : String) (f : Player → Player) : Registry :=
  match ps with
  | [] => []
  | p :: rest =>
    if p.id == i then f p :: rest else p :: updateFirst rest i f

/-- `SnowBrawlPlayer.applyKnockback(direction, force)` (`player.js:1003`). -/
def applyKnockback (p : Player) (direction : Vec3) (force : ℚ) : Player :=
  { p with
    velocity :=
      ⟨p.velocity.x + direction.x * force * (5/2),
       p.velocity.y + force * (6/5),
       p.velocity.z + direction.z * force * (5/2)⟩,
    isOnGround := false }

/-- `SnowBrawlPlayer.eliminate(attackerId)` (`player.js:797`): mark the
victim not alive, then award `ELIMINATION_POINTS` to the attacker if
`Game.getPlayerById(attackerId)` finds one (alive or not). -/
def eliminate (ps : Registry) (victimId attackerId : String) : Registry :=
  let ps1 := updateFirst ps victimId (fun v => { v with isAlive := false })
  match getPlayerById ps1 attackerId with
  | some _ =>
    updateFirst ps1 attackerId
      (fun a => { a with score := a.score + GC.ELIMINATION_POINTS })
  | none => ps1

/-- `SnowBrawlPlayer.takeDamage(damage, attackerId)` (`player.js:586`),
as an operation on the registry holding the victim.  Early-returns when
the victim's own safe-zone test holds; otherwise subtracts the damage,
clamping to 0 and eliminating on `health ≤ 0`, else applying knockback
away from the attacker (when the attacker id resolves). -/
def takeDamage (ps : Registry) (victimId : String) (damage : ℚ)
    (attackerId : String) : Registry :=
  match getPlayerById ps victimId with
  | none => ps
  | some v =>
    if isPlayerInSafeZone v then ps
    else
      let h := v.health - damage
      if h ≤ 0 then
        eliminate (updateFirst ps victimId (fun p => { p with health := 0 }))
          victimId attackerId
      else
        let ps1 := updateFirst ps victimId (fun p => { p with health := h })
        match getPlayerById ps attackerId with
        | some atk =>
          updateFirst ps1 victimId
            (fun p => applyKnockback p
              (Vec3.normalizeV (Vec3.subV v.position atk.position))
              (damage * (1/2)))
        | none => ps1

/-- `SnowBrawlSnowball.hit()` (`snowball.js:137`): set the hit flag; a
second call is a no-op (the visual effect and the delayed `remove()` are
rendering-side and not part of the tick state). -/
def hitSnowball (s : Snowball) : Snowball :=
  if s.hasHit then s else { s with hasHit := true }

/-- The three skip conditions shared by the discrete and the swept
projectile-versus-agent loops (`physics.js:189-201` and `661-672`):
dead targets, the thrower, and targets passing their own safe-zone
test are never hit. -/
def eligibleTarget (s : Snowball) (p : Player) : Bool :=
  p.isAlive && !(s.ownerId == p.id) && !(isPlayerInSafeZone p)

/-- The seven collision check points of `physics.js:218-242`: feet,
middle body, head, and four side points at half height; `player.height`
and `player.radius` fall back to 2.0 and 0.5 when falsy (`||` on a
number is the identity except on 0). -/
def checkPoints (p : Player) : List Vec3 :=
  let h := if p.height = 0 then 2 else p.height
  let r := if p.radius = 0 then 1/2 else p.radius
  [p.position,
   ⟨p.position.x, p.position.y + h * (1/2), p.position.z⟩,
   ⟨p.position.x, p.position.y + h * (4/5), p.position.z⟩,
   ⟨p.position.x + r, p.position.y + h * (1/2), p.position.z⟩,
   ⟨p.position.x - r, p.position.y + h * (1/2), p.position.z⟩,
   ⟨p.position.x, p.position.y + h * (1/2), p.position.z + r⟩,
   ⟨p.position.x, p.position.y + h * (1/2), p.position.z - r⟩]

/-- Squared minimum over the check-point distances (`physics.js:244-249`);
the source takes the minimum of the true distances, which compares
identically after squaring. -/
def minCheckDistSq (s : Snowball) (p : Player) : ℚ :=
  match (checkPoints p).map (fun q => Vec3.distSq s.position q) with
  | [] => 0
  | d :: ds => ds.foldl min d

/-- `effectiveCollisionThreshold` of `physics.js:251-278`: snowball radius
plus the player radius scaled by 3 (human target) or 5 (AI target),
then widened by 1.5 for human-on-AI and AI-on-human shots. -/
def effectiveCollisionThreshold (s : Snowball) (p : Player) : ℚ :=
  let pr := if p.radius = 0 then 1/2 else p.radius
  let mult : ℚ := if p.id == "player" then 3 else 5
  let base := s.radius + pr * mult
  let t1 := if s.ownerId == "player" && !(p.id == "player") then base * (3/2) else base
  if !(s.ownerId == "player") && p.id == "player" then t1 * (3/2) else t1

/-- The full hit test of the discrete pass for one snowball/player pair:
the skip conditions plus `minDistance < effectiveCollisionThreshold`
(`physics.js:288`), embedded in squared form. -/
def discreteHitCond (s : Snowball) (p : Player) : Bool :=
  eligibleTarget s p &&
    decide (minCheckDistSq s p <
      effectiveCollisionThreshold s p * effectiveCollisionThreshold s p)

/-- The common body of the two hit branches (`physics.js:293-306` and
`704-717`): `player.takeDamage(snowball.damage, snowball.ownerId)`
followed by `player.applyKnockback` away from `knockFrom` (the snowball
position in the discrete pass, the closest path point in the swept
pass) with `KNOCKBACK_FORCE`. -/
def applySnowballHit (all : Registry) (p : Player) (s : Snowball)
    (knockFrom : Vec3) : Registry :=
  let all1 := takeDamage all p.id s.damage s.ownerId
  updateFirst all1 p.id
    (fun q => applyKnockback q
      (Vec3.normalizeV (Vec3.subV p.position knockFrom)) GC.KNOCKBACK_FORCE)

/-- Inner player loop of `checkSnowballPlayerCollisions`: first player
(in registration order) passing `discreteHitCond` is hit and the loop
breaks; mutation targets the live registry `all`. -/
def snowballPlayersLoop (s : Snowball) (all : Registry) :
    List Player → Registry × Snowball
  | [] => (all, s)
  | p :: rest =>
    if discreteHitCond s p then
      (applySnowballHit all p s s.position, hitSnowball s)
    else snowballPlayersLoop s all rest

/-- One snowball of the discrete pass (`physics.js:171-310`): snowballs
whose hit flag is set are skipped outright. -/
def processSnowballDiscrete (all : Registry) (s : Snowball) :
    Registry × Snowball :=
  if s.hasHit then (all, s) else snowballPlayersLoop s all all

/-- `SnowBrawlPhysics.checkSnowballPlayerCollisions` (`physics.js:164`):
every snowball against the player registry, in list order, threading
the registry mutations. -/
def checkSnowballPlayerCollisions (all : Registry) :
    List Snowball → Registry × List Snowball
  | [] => (all, [])
  | s :: rest =>
    let r1 := processSnowballDiscrete all s
    let r2 := checkSnowballPlayerCollisions r1.1 rest
    (r2.1, r1.2 :: r2.2)

/-- Swept-path hit test for one player (`physics.js:674-699`), in exact
rational form.  With `delta = pos - prev` and `lenSq = |delta|²` the
source computes `proj/len = playerToStart ⬝ delta/len` and skips when the
projection is outside `[0, len]`, i.e. exactly when `dot < 0 ∨ dot >
lenSq`; the closest point `prev + (dot/lenSq)·delta` is rational, and the
final comparison against `snowball.radius + player.radius * 4` is taken
squared. -/
def pathHitCond (s : Snowball) (prev delta : Vec3) (lenSq : ℚ)
    (p : Player) : Bool :=
  eligibleTarget s p &&
    (let dotv := Vec3.dotV (Vec3.subV p.position prev) delta
     if dotv < 0 || lenSq < dotv then false
     else
       let closest := Vec3.addV prev (Vec3.scaleV (dotv / lenSq) delta)
       let thr := s.radius + p.radius * 4
       decide (Vec3.distSq p.position closest < thr * thr))

/-- The closest point on the swept segment used by the path pass. -/
def pathClosestPoint (prev delta : Vec3) (lenSq : ℚ) (p : Player) : Vec3 :=
  Vec3.addV prev (Vec3.scaleV (Vec3.dotV (Vec3.subV p.position prev) delta / lenSq) delta)

/-- Inner player loop of `checkSnowballPathCollision`: first matching
player is hit (knockback away from the closest path point) and the loop
breaks. -/
def pathPlayersLoop (s : Snowball) (prev delta : Vec3) (lenSq : ℚ)
    (all : Registry) : List Player → Registry × Snowball
  | [] => (all, s)
  | p :: rest =>
    if pathHitCond s prev delta lenSq p then
      (applySnowballHit all p s (pathClosestPoint prev delta lenSq p), hitSnowball s)
    else pathPlayersLoop s prev delta lenSq all rest

/-- `SnowBrawlPhysics.checkSnowballPathCollision(snowball, prevPosition)`
(`physics.js:649`): skipped for already-hit snowballs and for frame
segments shorter than 0.1 (compared squared: `lenSq < 1/100`). -/
def checkSnowballPathCollision (s : Snowball) (prev : Vec3)
    (all : Registry) : Registry × Snowball :=
  if s.hasHit then (all, s)
  else
    let delta := Vec3.subV s.position prev
    let lenSq := Vec3.dotV delta delta
    if lenSq < 1/100 then (all, s)
    else pathPlayersLoop s prev delta lenSq all all

/-- `SnowBrawlPhysics.constrainToMapBoundaries` (`physics.js:619`): clamp
x and z to the arena rectangle shrunk by the object radius, zeroing the
velocity component whenever a clamp engages. -/
def constrainToMapBoundaries (pos vel : Vec3) (radius : ℚ) : Vec3 × Vec3 :=
  let halfW := GC.MAP_WIDTH / 2
  let halfL := GC.MAP_LENGTH / 2
  let xr : ℚ × ℚ :=
    if pos.x < -halfW + radius then (-halfW + radius, 0)
    else if halfW - radius < pos.x then (halfW - radius, 0)
    else (pos.x, vel.x)
  let zr : ℚ × ℚ :=
    if pos.z < -halfL + radius then (-halfL + radius, 0)
    else if halfL - radius < pos.z then (halfL - radius, 0)
    else (pos.z, vel.z)
  (⟨xr.1, pos.y, zr.1⟩, ⟨xr.2, vel.y, zr.2⟩)

/-- Player branch of `SnowBrawlPhysics.updatePositions` (`physics.js:562-578`):
integrate velocity, snap to the ground plane at y = 0, then constrain to
the map boundaries. -/
def movePlayer (dt : ℚ) (p : Player) : Player :=
  let pos := Vec3.addV p.position (Vec3.scaleV dt p.velocity)
  if pos.y ≤ 0 then
    let c := constrainToMapBoundaries ⟨pos.x, 0, pos.z⟩
      ⟨p.velocity.x, 0, p.velocity.z⟩ p.radius
    { p with position := c.1, velocity := c.2, isOnGround := true }
  else
    let c := constrainToMapBoundaries pos p.velocity p.radius
    { p with position := c.1, velocity := c.2, isOnGround := false }

/-- Snowball branch of `SnowBrawlPhysics.updatePositions`
(`physics.js:581-612`): skip hit snowballs; integrate; on reaching the
ground (`y ≤ radius`) pin y to the radius, mark hit and return early
(before the boundary clamp); otherwise clamp to the boundaries and run
the swept path check from the pre-integration position. -/
def moveSnowball (dt : ℚ) (all : Registry) (s : Snowball) :
    Registry × Snowball :=
  if s.hasHit then (all, s)
  else
    let prev := s.position
    let pos := Vec3.addV s.position (Vec3.scaleV dt s.velocity)
    if pos.y ≤ s.radius then
      (all, hitSnowball { s with position := ⟨pos.x, s.radius, pos.z⟩ })
    else
      let c := constrainToMapBoundaries pos s.velocity s.radius
      checkSnowballPathCollision { s with position := c.1, velocity := c.2 } prev all

/-- The snowball fold of `updatePositions`, threading registry mutations
made by path collisions. -/
def updateSnowballs (dt : ℚ) (all : Registry) :
    List Snowball → Registry × List Snowball
  | [] => (all, [])
  | s :: rest =>
    let r1 := moveSnowball dt all s
    let r2 := updateSnowballs dt r1.1 rest
    (r2.1, r1.2 :: r2.2)

/-- `SnowBrawlPhysics.updatePositions(deltaTime)` (`physics.js:560`):
players first, then snowballs. -/
def updatePositions (dt : ℚ) (all : Registry) (sbs : List Snowball) :
    Registry × List Snowball :=
  updateSnowballs dt (all.map (movePlayer dt)) sbs

/-- Snowball half of `SnowBrawlPhysics.applyGravity` (`physics.js:133`):
gravity applies to every snowball unconditionally. -/
def applyGravitySnowball (dt : ℚ) (s : Snowball) : Snowball :=
  { s with velocity :=
      ⟨s.velocity.x, s.velocity.y - GC.PHYSICS_GRAVITY * dt, s.velocity.z⟩ }

/-- `SnowBrawlSnowball.update(deltaTime)` (`snowball.js:78`), with the
wall clock advanced by `dt` seconds per tick; returns the updated
snowball and whether `remove()` was called.  Lifetime expiry returns
early; the travel-distance check (`distanceTraveled > maxDistance`, the
straight-line distance from the spawn position, compared squared) calls
`remove()` but falls through, so air resistance still scales the
horizontal velocity afterwards. -/
def snowballUpdate (dt : ℚ) (s : Snowball) : Snowball × Bool :=
  if s.hasHit then (s, false)
  else
    let s1 := { s with elapsedMs := s.elapsedMs + dt * 1000 }
    if s1.lifetime < s1.elapsedMs then (s1, true)
    else
      let distEx :=
        decide (s1.maxDistance * s1.maxDistance <
          Vec3.distSq s1.position s1.initialPosition)
      ({ s1 with velocity :=
          ⟨s1.velocity.x * (1 - GC.AIR_RESISTANCE), s1.velocity.y,
           s1.velocity.z * (1 - GC.AIR_RESISTANCE)⟩ }, distEx)

/-- A snowball in unobstructed flight together with its removal status
(removal = being unregistered from `Game.snowballs`). -/
structure FlightState where
  sb : Snowball
  removed : Bool
deriving DecidableEq, Repr

/-- One `Game.update(deltaTime)` tick for a single unobstructed snowball
(no players, walls or igloos in range): `physics.applyGravity`,
`physics.updatePositions` (with an empty player registry), then
`snowball.update`.  A removed snowball is out of both lists and no
longer updated. -/
def flightTick (dt : ℚ) (st : FlightState) : FlightState :=
  if st.removed then st
  else
    let s1 := applyGravitySnowball dt st.sb
    let s2 := (moveSnowball dt [] s1).2
    let r := snowballUpdate dt s2
    { sb := r.1, removed := r.2 }

/-- Iterated flight ticks from a spawn state. -/
def flightRun (dt : ℚ) (s0 : FlightState) : ℕ → FlightState
  | 0 => s0
  | n + 1 => flightTick dt (flightRun dt s0 n)

def Upgrades.setLevel (u : Upgrades) : UpgradeType → ℕ → Upgrades
  | .speed, n => { u with speed := n }
  | .damage, n => { u with damage := n }
  | .range, n => { u with range := n }
  | .size, n => { u with size := n }
  | .capacity, n => { u with capacity := n }

/-- The player attribute each upgrade stat feeds (`player.js:1101-1117`). -/
def upgradeAttr (p : Player) : UpgradeType → ℚ
  | .speed => p.moveSpeed
  | .damage => p.snowballDamage
  | .range => p.throwRange
  | .size => p.snowballSize
  | .capacity => p.maxSnowballCount

/-- `SnowBrawlPlayer.applyUpgrade(upgradeType)` (`player.js:1077`):
fail (returning `false`, changing nothing) when the diamond balance is
below the cost or the stat is at/above its max level; otherwise deduct
the cost, increment the level and add the per-level increment to the
corresponding attribute. -/
def applyUpgrade (p : Player) (t : UpgradeType) : Player × Bool :=
  if p.diamondCount < GC.upgradeCost t then (p, false)
  else if GC.upgradeMaxLevel t ≤ p.upgrades.level t then (p, false)
  else
    let p1 := { p with diamondCount := p.diamondCount - GC.upgradeCost t }
    let p2 := { p1 with upgrades := p1.upgrades.setLevel t (p1.upgrades.level t + 1) }
    let inc := GC.upgradeIncrement t
    let p3 :=
      match t with
      | .speed => { p2 with moveSpeed := p2.moveSpeed + inc }
      | .damage => { p2 with snowballDamage := p2.snowballDamage + inc }
      | .range => { p2 with throwRange := p2.throwRange + inc }
      | .size => { p2 with snowballSize := p2.snowballSize + inc }
      | .capacity => { p2 with maxSnowballCount := p2.maxSnowballCount + inc }
    (p3, true)

/-- A baseline player record used by concrete witnesses below: the
constructor defaults of `player.js` (health 10, radius 1.5, height 1,
alive, on the ground, no igloo yet, all upgrade levels 0). -/
def mkPlayer (i : String) (pos : Vec3) : Player :=
  { id := i
    isHuman := false
    position := pos
    velocity := ⟨0, 0, 0⟩
    moveSpeed := 5
    height := 1
    radius := 3/2
    health := GC.INITIAL_HEALTH
    snowballCount := 10
    maxSnowballCount := 10
    diamondCount := 0
    score := 0
    snowballDamage := 1
    snowballSize := 7/20
    throwRange := 200
    isAlive := true
    isOnGround := true
    iglooPosition := none
    upgrades := ⟨0, 0, 0, 0, 0⟩ }

def witnessPlayerC1 : Player :=
  { mkPlayer "p1" ⟨3, 0, 0⟩ with iglooPosition := some ⟨0, 0, 0⟩ }

/- Fixture for the C2 counterexample: `canA` stands at the origin, fully
inside `canB`'s sanctuary (anchor at the origin, radius 5) but 100 away
from its own anchor; `canSb` is `canB`'s snowball at `canA`'s feet. -/
def canA : Player :=
  { mkPlayer "A" ⟨0, 0, 0⟩ with iglooPosition := some ⟨100, 0, 0⟩ }

def canB : Player :=
  { mkPlayer "B" ⟨20, 0, 0⟩ with iglooPosition := some ⟨0, 0, 0⟩ }

def canSb : Snowball :=
  { position := ⟨0, 0, 0⟩
    velocity := ⟨0, 0, 0⟩
    initialPosition := ⟨5, 0, 0⟩
    ownerId := "B"
    damage := 1
    radius := 7/20
    maxDistance := 200
    lifetime := 9000
    elapsedMs := 0
    hasHit := false }

/- Fixture for the C5 counterexample: `cexD` is an AI player at the
origin and `cexSb5` a snowball 3 units away — outside plain
sphere-sphere overlap (sum of radii 1.85) but well inside the source's
widened threshold (7.85). -/
def cexD : Player := mkPlayer "D" ⟨0, 0, 0⟩

def cexSb5 : Snowball :=
  { position := ⟨3, 0, 0⟩
    velocity := ⟨0, 0, 0⟩
    initialPosition := ⟨3, 0, 0⟩
    ownerId := "E"
    damage := 1
    radius := 7/20
    maxDistance := 200
    lifetime := 9000
    elapsedMs := 0
    hasHit := false }

/- Fixture for the C6 counterexample: the snowball moved from the origin
to (1,0,0); player `cexF` stands just beyond the segment end, within the
combined radius of the endpoint, but the source skips projections
falling outside the segment instead of clamping them. -/
def cexF : Player := mkPlayer "F" ⟨3/2, 0, 0⟩

def cexSb6 : Snowball :=
  { position := ⟨1, 0, 0⟩
    velocity := ⟨0, 0, 0⟩
    initialPosition := ⟨0, 0, 0⟩
    ownerId := "E"
    damage := 1
    radius := 7/20
    maxDistance := 200
    lifetime := 9000
    elapsedMs := 0
    hasHit := false }

/- Fixture for the C8 counterexample: `lowA` has 1 health; `deadB`, the
attacker, is already eliminated but still registered. -/
def lowA : Player := { mkPlayer "A" ⟨0, 0, 0⟩ with health := 1 }

def deadB : Player := { mkPlayer "B" ⟨20, 0, 0⟩ with isAlive := false }

/- Fixture for the C9 counterexample: travel budget 15 at throw speed 15
with tick length 1/30 — `ceil(D/S/dt) = 30`, but air resistance keeps
the snowball short of 15 units of straight-line travel after 30 ticks
(it is removed only at tick 33). -/
def flightSb : Snowball :=
  { position := ⟨0, 100, 0⟩
    velocity := ⟨15, 0, 0⟩
    initialPosition := ⟨0, 100, 0⟩
    ownerId := "player"
    damage := 1
    radius := 7/20
    maxDistance := 15
    lifetime := 9000
    elapsedMs := 0
    hasHit := false }

/- A snowball whose hit flag is already set (C4 witness). -/
def hitSb : Snowball := { cexSb5 with hasHit := true }

/- A player holding 3 diamonds (C7 witness). -/
def richP : Player := { mkPlayer "P" ⟨0, 0, 0⟩ with diamondCount := 3 }

/- A snowball already past its travel budget (C9 witness). -/
def farSb : Snowball := { flightSb with position := ⟨16, 100, 0⟩ }

/- A player parked outside the east boundary (C10 witness). -/
def wanderer : Player := mkPlayer "W" ⟨100, 0, 0⟩

/-- Health within bounds: `0 ≤ health ≤ H`. -/
def HealthIn (H : ℚ) (p : Player) : Prop :=
  0 ≤ p.health ∧ p.health ≤ H

/-- Relation between a registry entry before and after a combat pass:
the identity, geometry and sanctuary data never change, and an entry
that passed its own safe-zone test keeps its health. -/
def CombatPreserved (p q : Player) : Prop :=
  q.id = p.id ∧ q.position = p.position ∧ q.iglooPosition = p.iglooPosition ∧
    q.radius = p.radius ∧ q.height = p.height ∧ q.isHuman = p.isHuman ∧
    (isPlayerInSafeZone p = true → q.health = p.health)

/-- A per-player update that keeps identity, geometry and sanctuary
fields (all combat-pass updates do). -/
def KeepsIdentityFields (f : Player → Player) : Prop :=
  ∀ p, (f p).id = p.id ∧ (f p).position = p.position ∧
    (f p).iglooPosition = p.iglooPosition ∧ (f p).radius = p.radius ∧
    (f p).height = p.height ∧ (f p).isHuman = p.isHuman

/-! ### Registry lemmas -/

theorem getPlayerById_mem {ps : Registry} {i : String} {v : Player}
    (h : getPlayerById ps i = some v) : v ∈ ps :=
  List.mem_of_find?_eq_some h

theorem getPlayerById_id {ps : Registry} {i : String} {v : Player}
    (h : getPlayerById ps i = some v) : v.id = i := by
  have := List.find?_some h
  simpa using this

theorem mem_updateFirst_of_find {ps : Registry} {i : String} {v : Player}
    (f : Player → Player) (hfind : getPlayerById ps i = some v) :
    ∀ q ∈ updateFirst ps i f, q ∈ ps ∨ q = f v := by
  induction ps with
  | nil => simp [updateFirst]
  | cons p rest ih =>
    by_cases hp : (p.id == i) = true
    · have hv : p = v := by
        have : some p = some v := by
          simpa [getPlayerById, List.find?_cons, hp] using hfind
        exact Option.some.inj this
      intro q hq
      rw [updateFirst, if_pos hp] at hq
      rcases List.mem_cons.1 hq with h | h
      · exact Or.inr (by rw [h, hv])
      · exact Or.inl (List.mem_cons_of_mem _ h)
    · have hfind' : getPlayerById rest i = some v := by
        simpa [getPlayerById, List.find?_cons, hp] using hfind
      intro q hq
      rw [updateFirst, if_neg hp] at hq
      rcases List.mem_cons.1 hq with h | h
      · exact Or.inl (List.mem_cons.2 (Or.inl h))
      · rcases ih hfind' q h with h' | h'
        · exact Or.inl (List.mem_cons_of_mem _ h')
        · exact Or.inr h'

theorem mem_updateFirst {ps : Registry} {i : String} {f : Player → Player} :
    ∀ q ∈ updateFirst ps i f, q ∈ ps ∨ ∃ p ∈ ps, q = f p := by
  induction ps with
  | nil => simp [updateFirst]
  | cons p rest ih =>
    intro q hq
    rw [updateFirst] at hq
    split at hq
    · rcases List.mem_cons.1 hq with h | h
      · exact Or.inr ⟨p, List.mem_cons_self .., h⟩
      · exact Or.inl (List.mem_cons_of_mem _ h)
    · rcases List.mem_cons.1 hq with h | h
      · exact Or.inl (List.mem_cons.2 (Or.inl h))
      · rcases ih q h with h' | h'
        · exact Or.inl (List.mem_cons_of_mem _ h')
        · rcases h' with ⟨p', hp', he⟩
          exact Or.inr ⟨p', List.mem_cons_of_mem _ hp', he⟩

theorem getPlayerById_updateFirst_self {ps : Registry} {i : String}
    (f : Player → Player) (hf : ∀ p, (f p).id = p.id) :
    getPlayerById (updateFirst ps i f) i = Option.map f (getPlayerById ps i) := by
  induction ps with
  | nil => simp [updateFirst, getPlayerById]
  | cons p rest ih =>
    by_cases hp : (p.id == i) = true
    · have hfp : ((f p).id == i) = true := by rw [hf]; exact hp
      rw [updateFirst, if_pos hp]
      simp [getPlayerById, List.find?_cons, hp, hfp]
    · have hp' : (p.id == i) = false := by simpa using hp
      rw [updateFirst, if_neg hp]
      simpa [getPlayerById, List.find?_cons, hp'] using ih

theorem getPlayerById_updateFirst_ne {ps : Registry} {i j : String}
    (f : Player → Player) (hf : ∀ p, (f p).id = p.id) (hij : j ≠ i) :
    getPlayerById (updateFirst ps i f) j = getPlayerById ps j := by
  induction ps with
  | nil => simp [updateFirst]
  | cons p rest ih =>
    by_cases hp : (p.id == i) = true
    · have hpid : p.id = i := by simpa using hp
      have hpj : (p.id == j) = false := by
        simp only [beq_eq_false_iff_ne, hpid]
        exact hij.symm
      have hfpj : ((f p).id == j) = false := by rw [hf]; exact hpj
      rw [updateFirst, if_pos hp]
      simp [getPlayerById, List.find?_cons, hpj, hfpj]
    · by_cases hpj : (p.id == j) = true
      · rw [updateFirst, if_neg hp]
        simp [getPlayerById, List.find?_cons, hpj]
      · have hpj' : (p.id == j) = false := by simpa using hpj
        rw [updateFirst, if_neg hp]
        simpa [getPlayerById, List.find?_cons, hpj'] using ih

theorem length_updateFirst {ps : Registry} {i : String} {f : Player → Player} :
    (updateFirst ps i f).length = ps.length := by
  induction ps with
  | nil => rfl
  | cons p rest ih =>
    rw [updateFirst]
    split <;> simp [ih]

theorem map_updateFirst_of_preserve {ps : Registry} {i : String}
    (f : Player → Player) (g : Player → ℚ) (hf : ∀ p, g (f p) = g p) :
    (updateFirst ps i f).map g = ps.map g := by
  induction ps with
  | nil => rfl
  | cons p rest ih =>
    rw [updateFirst]
    split <;> simp [hf, ih]

/-! ### CombatPreserved machinery: the collision passes never move a
player, never change identity or sanctuary data, and never change the
health of a player passing its own safe-zone test. -/

theorem isPlayerInSafeZone_congr {p q : Player} (hpos : q.position = p.position)
    (hig : q.iglooPosition = p.iglooPosition) :
    isPlayerInSafeZone q = isPlayerInSafeZone p := by
  unfold isPlayerInSafeZone isPointInSafeZone
  rw [hpos, hig]

theorem combatPreserved_refl (p : Player) : CombatPreserved p p :=
  ⟨rfl, rfl, rfl, rfl, rfl, rfl, fun _ => rfl⟩

theorem combatPreserved_trans {p q r : Player} (h1 : CombatPreserved p q)
    (h2 : CombatPreserved q r) : CombatPreserved p r := by
  obtain ⟨a1, b1, c1, d1, e1, f1, g1⟩ := h1
  obtain ⟨a2, b2, c2, d2, e2, f2, g2⟩ := h2
  refine ⟨a2.trans a1, b2.trans b1, c2.trans c1, d2.trans d1, e2.trans e1,
    f2.trans f1, fun hz => ?_⟩
  have hzq : isPlayerInSafeZone q = true := by
    rw [isPlayerInSafeZone_congr b1 c1]; exact hz
  rw [g2 hzq, g1 hz]

theorem forall₂_cp_refl (ps : Registry) : List.Forall₂ CombatPreserved ps ps :=
  List.forall₂_same.2 (fun p _ => combatPreserved_refl p)

theorem forall₂_cp_trans {a b c : Registry}
    (h1 : List.Forall₂ CombatPreserved a b)
    (h2 : List.Forall₂ CombatPreserved b c) :
    List.Forall₂ CombatPreserved a c := by
  induction h1 generalizing c with
  | nil => cases h2; exact List.Forall₂.nil
  | cons hpq _ ih =>
    cases h2 with
    | cons hqr hrest => exact List.Forall₂.cons (combatPreserved_trans hpq hqr) (ih hrest)

theorem forall₂_cp_updateFirst_keep {ps : Registry} {i : String}
    {f : Player → Player} (hf : KeepsIdentityFields f)
    (hh : ∀ p, (f p).health = p.health) :
    List.Forall₂ CombatPreserved ps (updateFirst ps i f) := by
  induction ps with
  | nil => exact List.Forall₂.nil
  | cons p rest ih =>
    rw [updateFirst]
    split
    · exact List.Forall₂.cons
        ⟨(hf p).1, (hf p).2.1, (hf p).2.2.1, (hf p).2.2.2.1,
         (hf p).2.2.2.2.1, (hf p).2.2.2.2.2, fun _ => hh p⟩
        (forall₂_cp_refl rest)
    · exact List.Forall₂.cons (combatPreserved_refl p) ih

theorem forall₂_cp_updateFirst_zoneFalse {ps : Registry} {i : String}
    {v : Player} {f : Player → Player} (hfind : getPlayerById ps i = some v)
    (hz : isPlayerInSafeZone v = false) (hf : KeepsIdentityFields f) :
    List.Forall₂ CombatPreserved ps (updateFirst ps i f) := by
  induction ps with
  | nil => exact List.Forall₂.nil
  | cons p rest ih =>
    by_cases hp : (p.id == i) = true
    · have hpv : p = v :=
        Option.some.inj (by simpa [getPlayerById, List.find?_cons, hp] using hfind)
      rw [updateFirst, if_pos hp]
      refine List.Forall₂.cons
        ⟨(hf p).1, (hf p).2.1, (hf p).2.2.1, (hf p).2.2.2.1,
         (hf p).2.2.2.2.1, (hf p).2.2.2.2.2, fun hzp => ?_⟩
        (forall₂_cp_refl rest)
      rw [hpv, hz] at hzp
      cases hzp
    · have hp' : (p.id == i) = false := by simpa using hp
      have hfind' : getPlayerById rest i = some v := by
        simpa [getPlayerById, List.find?_cons, hp'] using hfind
      rw [updateFirst, if_neg hp]
      exact List.Forall₂.cons (combatPreserved_refl p) (ih hfind')

theorem forall₂_cp_eliminate (ps : Registry) (vid atk : String) :
    List.Forall₂ CombatPreserved ps (eliminate ps vid atk) := by
  have h1 : List.Forall₂ CombatPreserved ps
      (updateFirst ps vid (fun v => { v with isAlive := false })) :=
    forall₂_cp_updateFirst_keep (fun p => ⟨rfl, rfl, rfl, rfl, rfl, rfl⟩)
      (fun p => rfl)
  unfold eliminate
  cases hget : getPlayerById
      (updateFirst ps vid (fun v => { v with isAlive := false })) atk with
  | some a =>
    simp only [hget]
    exact forall₂_cp_trans h1
      (forall₂_cp_updateFirst_keep (fun p => ⟨rfl, rfl, rfl, rfl, rfl, rfl⟩)
        (fun p => rfl))
  | none => simp only [hget]; exact h1

theorem forall₂_cp_takeDamage (ps : Registry) (vid : String) (dmg : ℚ)
    (atk : String) : List.Forall₂ CombatPreserved ps (takeDamage ps vid dmg atk) := by
  unfold takeDamage
  cases hv : getPlayerById ps vid with
  | none => exact forall₂_cp_refl ps
  | some v =>
    by_cases hz : isPlayerInSafeZone v = true
    · simp only [hz, if_true]
      exact forall₂_cp_refl ps
    · have hz' : isPlayerInSafeZone v = false := by simpa using hz
      simp only [hz', Bool.false_eq_true, if_false]
      by_cases hle : v.health - dmg ≤ 0
      · simp only [hle, if_true]
        refine forall₂_cp_trans ?_ (forall₂_cp_eliminate _ vid atk)
        exact forall₂_cp_updateFirst_zoneFalse hv hz'
          (fun p => ⟨rfl, rfl, rfl, rfl, rfl, rfl⟩)
      · simp only [hle, if_false]
        cases hatk : getPlayerById ps atk with
        | some a =>
          refine forall₂_cp_trans ?_
            (forall₂_cp_updateFirst_keep ?_ (fun p => rfl))
          · exact forall₂_cp_updateFirst_zoneFalse hv hz'
              (fun p => ⟨rfl, rfl, rfl, rfl, rfl, rfl⟩)
          · exact fun p => ⟨rfl, rfl, rfl, rfl, rfl, rfl⟩
        | none =>
          exact forall₂_cp_updateFirst_zoneFalse hv hz'
            (fun p => ⟨rfl, rfl, rfl, rfl, rfl, rfl⟩)

theorem forall₂_cp_applySnowballHit (all : Registry) (p : Player)
    (s : Snowball) (k : Vec3) :
    List.Forall₂ CombatPreserved all (applySnowballHit all p s k) := by
  unfold applySnowballHit
  exact forall₂_cp_trans (forall₂_cp_takeDamage all p.id s.damage s.ownerId)
    (forall₂_cp_updateFirst_keep
      (fun q => ⟨rfl, rfl, rfl, rfl, rfl, rfl⟩) (fun q => rfl))

theorem forall₂_cp_snowballPlayersLoop (s : Snowball) (all : Registry)
    (l : List Player) :
    List.Forall₂ CombatPreserved all (snowballPlayersLoop s all l).1 := by
  induction l with
  | nil => exact forall₂_cp_refl all
  | cons p rest ih =>
    rw [snowballPlayersLoop]
    split
    · exact forall₂_cp_applySnowballHit all p s s.position
    · exact ih

theorem forall₂_cp_processSnowballDiscrete (all : Registry) (s : Snowball) :
    List.Forall₂ CombatPreserved all (processSnowballDiscrete all s).1 := by
  unfold processSnowballDiscrete
  split
  · exact forall₂_cp_refl all
  · exact forall₂_cp_snowballPlayersLoop s all all

theorem forall₂_cp_checkSnowballPlayerCollisions (all : Registry)
    (sbs : List Snowball) :
    List.Forall₂ CombatPreserved all (checkSnowballPlayerCollisions all sbs).1 := by
  induction sbs generalizing all with
  | nil => exact forall₂_cp_refl all
  | cons s rest ih =>
    exact forall₂_cp_trans (forall₂_cp_processSnowballDiscrete all s)
      (ih (processSnowballDiscrete all s).1)

theorem forall₂_cp_pathPlayersLoop (s : Snowball) (prev delta : Vec3)
    (lenSq : ℚ) (all : Registry) (l : List Player) :
    List.Forall₂ CombatPreserved all (pathPlayersLoop s prev delta lenSq all l).1 := by
  induction l with
  | nil => exact forall₂_cp_refl all
  | cons p rest ih =>
    rw [pathPlayersLoop]
    split
    · exact forall₂_cp_applySnowballHit all p s (pathClosestPoint prev delta lenSq p)
    · exact ih

theorem forall₂_cp_checkSnowballPathCollision (s : Snowball) (prev : Vec3)
    (all : Registry) :
    List.Forall₂ CombatPreserved all (checkSnowballPathCollision s prev all).1 := by
  simp only [checkSnowballPathCollision]
  split
  · exact forall₂_cp_refl all
  · split
    · exact forall₂_cp_refl all
    · exact forall₂_cp_pathPlayersLoop s prev _ _ all all

theorem forall₂_cp_moveSnowball (dt : ℚ) (all : Registry) (s : Snowball) :
    List.Forall₂ CombatPreserved all (moveSnowball dt all s).1 := by
  simp only [moveSnowball]
  split
  · exact forall₂_cp_refl all
  · split
    · exact forall₂_cp_refl all
    · exact forall₂_cp_checkSnowballPathCollision _ _ all

theorem forall₂_cp_updateSnowballs (dt : ℚ) (all : Registry)
    (sbs : List Snowball) :
    List.Forall₂ CombatPreserved all (updateSnowballs dt all sbs).1 := by
  induction sbs generalizing all with
  | nil => exact forall₂_cp_refl all
  | cons s rest ih =>
    exact forall₂_cp_trans (forall₂_cp_moveSnowball dt all s)
      (ih (moveSnowball dt all s).1)

/-! ### Health-bound machinery: both collision passes keep every
registry health inside `[0, H]` as long as snowball damages are
nonnegative. -/

theorem healthIn_updateFirst_keep {H : ℚ} {ps : Registry} {i : String}
    {f : Player → Player} (hh : ∀ p, (f p).health = p.health)
    (hps : ∀ p ∈ ps, HealthIn H p) :
    ∀ q ∈ updateFirst ps i f, HealthIn H q := by
  intro q hq
  rcases mem_updateFirst q hq with h | ⟨p, hp, rfl⟩
  · exact hps q h
  · have := hps p hp
    unfold HealthIn at this ⊢
    rw [hh]
    exact this

theorem healthIn_eliminate {H : ℚ} {ps : Registry} {vid atk : String}
    (hps : ∀ p ∈ ps, HealthIn H p) :
    ∀ q ∈ eliminate ps vid atk, HealthIn H q := by
  unfold eliminate
  have h1 : ∀ q ∈ updateFirst ps vid (fun v => { v with isAlive := false }),
      HealthIn H q := healthIn_updateFirst_keep (fun p => rfl) hps
  cases hget : getPlayerById
      (updateFirst ps vid (fun v => { v with isAlive := false })) atk with
  | some a =>
    simp only [hget]
    exact healthIn_updateFirst_keep (fun p => rfl) h1
  | none => simp only [hget]; exact h1

theorem healthIn_takeDamage {H : ℚ} {ps : Registry} {vid : String} {dmg : ℚ}
    {atk : String} (hd : 0 ≤ dmg) (hps : ∀ p ∈ ps, HealthIn H p) :
    ∀ q ∈ takeDamage ps vid dmg atk, HealthIn H q := by
  unfold takeDamage
  cases hv : getPlayerById ps vid with
  | none => exact hps
  | some v =>
    have hvH := hps v (getPlayerById_mem hv)
    by_cases hz : isPlayerInSafeZone v = true
    · simp only [hz, if_true]; exact hps
    · have hz' : isPlayerInSafeZone v = false := by simpa using hz
      simp only [hz', Bool.false_eq_true, if_false]
      by_cases hle : v.health - dmg ≤ 0
      · simp only [hle, if_true]
        refine healthIn_eliminate ?_
        intro q hq
        rcases mem_updateFirst q hq with h | ⟨p, hp, rfl⟩
        · exact hps q h
        · exact ⟨le_refl 0, le_trans hvH.1 hvH.2⟩
      · simp only [hle, if_false]
        have h1 : ∀ q ∈ updateFirst ps vid
            (fun p => { p with health := v.health - dmg }), HealthIn H q := by
          intro q hq
          rcases mem_updateFirst q hq with h | ⟨p, hp, rfl⟩
          · exact hps q h
          · refine ⟨?_, ?_⟩
            · show (0:ℚ) ≤ v.health - dmg
              exact le_of_lt (not_le.1 hle)
            · show v.health - dmg ≤ H
              linarith [hvH.2]
        cases hatk : getPlayerById ps atk with
        | some a => exact healthIn_updateFirst_keep (fun p => rfl) h1
        | none => exact h1

theorem healthIn_applySnowballHit {H : ℚ} {all : Registry} {p : Player}
    {s : Snowball} {k : Vec3} (hd : 0 ≤ s.damage)
    (hps : ∀ q ∈ all, HealthIn H q) :
    ∀ q ∈ applySnowballHit all p s k, HealthIn H q := by
  unfold applySnowballHit
  exact healthIn_updateFirst_keep (fun q => rfl) (healthIn_takeDamage hd hps)

theorem healthIn_snowballPlayersLoop {H : ℚ} {s : Snowball} {all : Registry}
    (l : List Player) (hd : 0 ≤ s.damage) (hps : ∀ q ∈ all, HealthIn H q) :
    ∀ q ∈ (snowballPlayersLoop s all l).1, HealthIn H q := by
  induction l with
  | nil => exact hps
  | cons p rest ih =>
    rw [snowballPlayersLoop]
    split
    · exact healthIn_applySnowballHit hd hps
    · exact ih

theorem healthIn_processSnowballDiscrete {H : ℚ} {all : Registry}
    {s : Snowball} (hd : 0 ≤ s.damage) (hps : ∀ q ∈ all, HealthIn H q) :
    ∀ q ∈ (processSnowballDiscrete all s).1, HealthIn H q := by
  unfold processSnowballDiscrete
  split
  · exact hps
  · exact healthIn_snowballPlayersLoop all hd hps

theorem healthIn_checkSnowballPlayerCollisions {H : ℚ} {all : Registry}
    {sbs : List Snowball} (hd : ∀ s ∈ sbs, 0 ≤ s.damage)
    (hps : ∀ q ∈ all, HealthIn H q) :
    ∀ q ∈ (checkSnowballPlayerCollisions all sbs).1, HealthIn H q := by
  induction sbs generalizing all with
  | nil => exact hps
  | cons s rest ih =>
    exact ih (fun s' hs' => hd s' (List.mem_cons_of_mem _ hs'))
      (healthIn_processSnowballDiscrete (hd s (List.mem_cons_self ..)) hps)

theorem healthIn_pathPlayersLoop {H : ℚ} {s : Snowball} {prev delta : Vec3}
    {lenSq : ℚ} {all : Registry} (l : List Player) (hd : 0 ≤ s.damage)
    (hps : ∀ q ∈ all, HealthIn H q) :
    ∀ q ∈ (pathPlayersLoop s prev delta lenSq all l).1, HealthIn H q := by
  induction l with
  | nil => exact hps
  | cons p rest ih =>
    rw [pathPlayersLoop]
    split
    · exact healthIn_applySnowballHit hd hps
    · exact ih

theorem healthIn_checkSnowballPathCollision {H : ℚ} {s : Snowball}
    {prev : Vec3} {all : Registry} (hd : 0 ≤ s.damage)
    (hps : ∀ q ∈ all, HealthIn H q) :
    ∀ q ∈ (checkSnowballPathCollision s prev all).1, HealthIn H q := by
  simp only [checkSnowballPathCollision]
  split
  · exact hps
  · split
    · exact hps
    · exact healthIn_pathPlayersLoop all hd hps

theorem movePlayer_health (dt : ℚ) (p : Player) :
    (movePlayer dt p).health = p.health := by
  simp only [movePlayer]
  split <;> rfl

theorem healthIn_moveSnowball {H : ℚ} {dt : ℚ} {all : Registry}
    {s : Snowball} (hd : 0 ≤ s.damage) (hps : ∀ q ∈ all, HealthIn H q) :
    ∀ q ∈ (moveSnowball dt all s).1, HealthIn H q := by
  simp only [moveSnowball]
  split
  · exact hps
  · split
    · exact hps
    · exact healthIn_checkSnowballPathCollision hd hps

theorem healthIn_updateSnowballs {H : ℚ} {dt : ℚ} {all : Registry}
    {sbs : List Snowball} (hd : ∀ s ∈ sbs, 0 ≤ s.damage)
    (hps : ∀ q ∈ all, HealthIn H q) :
    ∀ q ∈ (updateSnowballs dt all sbs).1, HealthIn H q := by
  induction sbs generalizing all with
  | nil => exact hps
  | cons s rest ih =>
    exact ih (fun s' hs' => hd s' (List.mem_cons_of_mem _ hs'))
      (healthIn_moveSnowball (hd s (List.mem_cons_self ..)) hps)

theorem healthIn_updatePositions {H : ℚ} {dt : ℚ} {all : Registry}
    {sbs : List Snowball} (hd : ∀ s ∈ sbs, 0 ≤ s.damage)
    (hps : ∀ q ∈ all, HealthIn H q) :
    ∀ q ∈ (updatePositions dt all sbs).1, HealthIn H q := by
  unfold updatePositions
  refine healthIn_updateSnowballs hd ?_
  intro q hq
  rcases List.mem_map.1 hq with ⟨p, hp, rfl⟩
  have := hps p hp
  unfold HealthIn at this ⊢
  rw [movePlayer_health]
  exact this

/-! ### First-match characterizations of the two hit loops -/

theorem snowballPlayersLoop_of_forall_false {s : Snowball} {all : Registry}
    {l : List Player} (h : ∀ p ∈ l, discreteHitCond s p = false) :
    snowballPlayersLoop s all l = (all, s) := by
  induction l with
  | nil => rfl
  | cons p rest ih =>
    rw [snowballPlayersLoop,
      if_neg (by simp [h p (List.mem_cons_self ..)])]
    exact ih (fun q hq => h q (List.mem_cons_of_mem _ hq))

theorem snowballPlayersLoop_of_first {s : Snowball} {all : Registry}
    {l1 : List Player} {p : Player} {l2 : List Player}
    (h1 : ∀ q ∈ l1, discreteHitCond s q = false)
    (hp : discreteHitCond s p = true) :
    snowballPlayersLoop s all (l1 ++ p :: l2)
      = (applySnowballHit all p s s.position, hitSnowball s) := by
  induction l1 with
  | nil => rw [List.nil_append, snowballPlayersLoop, if_pos hp]
  | cons q rest ih =>
    rw [List.cons_append, snowballPlayersLoop,
      if_neg (by simp [h1 q (List.mem_cons_self ..)])]
    exact ih (fun q' hq' => h1 q' (List.mem_cons_of_mem _ hq'))

theorem snowballPlayersLoop_hasHit_iff {s : Snowball} {all : Registry}
    {l : List Player} (hs : s.hasHit = false) :
    (snowballPlayersLoop s all l).2.hasHit = true
      ↔ ∃ p ∈ l, discreteHitCond s p = true := by
  induction l with
  | nil => simp [snowballPlayersLoop, hs]
  | cons p rest ih =>
    rw [snowballPlayersLoop]
    by_cases hc : discreteHitCond s p = true
    · simp [hc, hitSnowball, hs]
    · rw [if_neg hc]
      rw [ih]
      simp only [List.mem_cons]
      constructor
      · rintro ⟨q, hq, hcq⟩
        exact ⟨q, Or.inr hq, hcq⟩
      · rintro ⟨q, hq | hq, hcq⟩
        · rw [hq] at hcq; exact absurd hcq hc
        · exact ⟨q, hq, hcq⟩

theorem pathPlayersLoop_of_forall_false {s : Snowball} {prev delta : Vec3}
    {lenSq : ℚ} {all : Registry} {l : List Player}
    (h : ∀ p ∈ l, pathHitCond s prev delta lenSq p = false) :
    pathPlayersLoop s prev delta lenSq all l = (all, s) := by
  induction l with
  | nil => rfl
  | cons p rest ih =>
    rw [pathPlayersLoop,
      if_neg (by simp [h p (List.mem_cons_self ..)])]
    exact ih (fun q hq => h q (List.mem_cons_of_mem _ hq))

theorem pathPlayersLoop_of_first {s : Snowball} {prev delta : Vec3}
    {lenSq : ℚ} {all : Registry} {l1 : List Player} {p : Player}
    {l2 : List Player}
    (h1 : ∀ q ∈ l1, pathHitCond s prev delta lenSq q = false)
    (hp : pathHitCond s prev delta lenSq p = true) :
    pathPlayersLoop s prev delta lenSq all (l1 ++ p :: l2)
      = (applySnowballHit all p s (pathClosestPoint prev delta lenSq p),
         hitSnowball s) := by
  induction l1 with
  | nil => rw [List.nil_append, pathPlayersLoop, if_pos hp]
  | cons q rest ih =>
    rw [List.cons_append, pathPlayersLoop,
      if_neg (by simp [h1 q (List.mem_cons_self ..)])]
    exact ih (fun q' hq' => h1 q' (List.mem_cons_of_mem _ hq'))

theorem pathPlayersLoop_hasHit_iff {s : Snowball} {prev delta : Vec3}
    {lenSq : ℚ} {all : Registry} {l : List Player} (hs : s.hasHit = false) :
    (pathPlayersLoop s prev delta lenSq all l).2.hasHit = true
      ↔ ∃ p ∈ l, pathHitCond s prev delta lenSq p = true := by
  induction l with
  | nil => simp [pathPlayersLoop, hs]
  | cons p rest ih =>
    rw [pathPlayersLoop]
    by_cases hc : pathHitCond s prev delta lenSq p = true
    · simp [hc, hitSnowball, hs]
    · rw [if_neg hc]
      rw [ih]
      simp only [List.mem_cons]
      constructor
      · rintro ⟨q, hq, hcq⟩
        exact ⟨q, Or.inr hq, hcq⟩
      · rintro ⟨q, hq | hq, hcq⟩
        · rw [hq] at hcq; exact absurd hcq hc
        · exact ⟨q, hq, hcq⟩

/-! ### Boundary-clamp machinery -/

theorem constrain_bounds (pos vel : Vec3) (r : ℚ)
    (hw : r ≤ GC.MAP_WIDTH / 2) (hl : r ≤ GC.MAP_LENGTH / 2) :
    -(GC.MAP_WIDTH / 2) + r ≤ (constrainToMapBoundaries pos vel r).1.x
    ∧ (constrainToMapBoundaries pos vel r).1.x ≤ GC.MAP_WIDTH / 2 - r
    ∧ -(GC.MAP_LENGTH / 2) + r ≤ (constrainToMapBoundaries pos vel r).1.z
    ∧ (constrainToMapBoundaries pos vel r).1.z ≤ GC.MAP_LENGTH / 2 - r := by
  simp only [constrainToMapBoundaries]
  split_ifs <;> refine ⟨?_, ?_, ?_, ?_⟩ <;> simp <;> linarith

theorem constrain_velocity_zero (pos vel : Vec3) (r : ℚ) :
    (pos.x < -(GC.MAP_WIDTH / 2) + r →
      (constrainToMapBoundaries pos vel r).1.x = -(GC.MAP_WIDTH / 2) + r
      ∧ (constrainToMapBoundaries pos vel r).2.x = 0)
    ∧ (¬ pos.x < -(GC.MAP_WIDTH / 2) + r → GC.MAP_WIDTH / 2 - r < pos.x →
      (constrainToMapBoundaries pos vel r).1.x = GC.MAP_WIDTH / 2 - r
      ∧ (constrainToMapBoundaries pos vel r).2.x = 0)
    ∧ (pos.z < -(GC.MAP_LENGTH / 2) + r →
      (constrainToMapBoundaries pos vel r).1.z = -(GC.MAP_LENGTH / 2) + r
      ∧ (constrainToMapBoundaries pos vel r).2.z = 0)
    ∧ (¬ pos.z < -(GC.MAP_LENGTH / 2) + r → GC.MAP_LENGTH / 2 - r < pos.z →
      (constrainToMapBoundaries pos vel r).1.z = GC.MAP_LENGTH / 2 - r
      ∧ (constrainToMapBoundaries pos vel r).2.z = 0) := by
  simp only [constrainToMapBoundaries]
  split_ifs <;>
    refine ⟨?_, ?_, ?_, ?_⟩ <;> intros <;>
      first
        | exact ⟨rfl, rfl⟩
        | (exfalso; linarith)

theorem movePlayer_radius (dt : ℚ) (p : Player) :
    (movePlayer dt p).radius = p.radius := by
  simp only [movePlayer]
  split <;> rfl

theorem movePlayer_bounds (dt : ℚ) (p : Player)
    (hw : p.radius ≤ GC.MAP_WIDTH / 2) (hl : p.radius ≤ GC.MAP_LENGTH / 2) :
    -(GC.MAP_WIDTH / 2) + p.radius ≤ (movePlayer dt p).position.x
    ∧ (movePlayer dt p).position.x ≤ GC.MAP_WIDTH / 2 - p.radius
    ∧ -(GC.MAP_LENGTH / 2) + p.radius ≤ (movePlayer dt p).position.z
    ∧ (movePlayer dt p).position.z ≤ GC.MAP_LENGTH / 2 - p.radius := by
  simp only [movePlayer]
  split
  · exact constrain_bounds _ _ _ hw hl
  · exact constrain_bounds _ _ _ hw hl

theorem forall₂_cp_pos_radius {ps r : Registry}
    (h : List.Forall₂ CombatPreserved ps r) :
    ∀ q ∈ r, ∃ p ∈ ps, q.position = p.position ∧ q.radius = p.radius := by
  induction h with
  | nil => intro q hq; cases hq
  | cons hpq _ ih =>
    intro q hq
    rcases List.mem_cons.1 hq with h' | h'
    · subst h'
      exact ⟨_, List.mem_cons_self .., hpq.2.1, hpq.2.2.2.1⟩
    · rcases ih q h' with ⟨p, hp, he⟩
      exact ⟨p, List.mem_cons_of_mem _ hp, he⟩

theorem hitSnowball_hasHit (s : Snowball) : (hitSnowball s).hasHit = true := by
  unfold hitSnowball
  split
  · assumption
  · rfl

theorem pathPlayersLoop_snd (s : Snowball) (prev delta : Vec3) (lenSq : ℚ)
    (all : Registry) (l : List Player) :
    (pathPlayersLoop s prev delta lenSq all l).2 = s
    ∨ (pathPlayersLoop s prev delta lenSq all l).2 = hitSnowball s := by
  induction l with
  | nil => exact Or.inl rfl
  | cons p rest ih =>
    rw [pathPlayersLoop]
    split
    · exact Or.inr rfl
    · exact ih

theorem checkSnowballPathCollision_snd (s : Snowball) (prev : Vec3)
    (all : Registry) :
    (checkSnowballPathCollision s prev all).2 = s
    ∨ (checkSnowballPathCollision s prev all).2 = hitSnowball s := by
  simp only [checkSnowballPathCollision]
  split
  · exact Or.inl rfl
  · split
    · exact Or.inl rfl
    · exact pathPlayersLoop_snd _ _ _ _ all all

theorem checkSnowballPathCollision_snd_of_not_hit (s : Snowball) (prev : Vec3)
    (all : Registry)
    (h : (checkSnowballPathCollision s prev all).2.hasHit = false) :
    (checkSnowballPathCollision s prev all).2 = s := by
  rcases checkSnowballPathCollision_snd s prev all with he | he
  · exact he
  · rw [he, hitSnowball_hasHit] at h
    cases h

theorem moveSnowball_snd_bounds (dt : ℚ) (all : Registry) (s : Snowball)
    (hw : s.radius ≤ GC.MAP_WIDTH / 2) (hl : s.radius ≤ GC.MAP_LENGTH / 2)
    (hnf : (moveSnowball dt all s).2.hasHit = false) :
    -(GC.MAP_WIDTH / 2) + (moveSnowball dt all s).2.radius
      ≤ (moveSnowball dt all s).2.position.x
    ∧ (moveSnowball dt all s).2.position.x
      ≤ GC.MAP_WIDTH / 2 - (moveSnowball dt all s).2.radius
    ∧ -(GC.MAP_LENGTH / 2) + (moveSnowball dt all s).2.radius
      ≤ (moveSnowball dt all s).2.position.z
    ∧ (moveSnowball dt all s).2.position.z
      ≤ GC.MAP_LENGTH / 2 - (moveSnowball dt all s).2.radius := by
  by_cases h0 : s.hasHit = true
  · exfalso
    simp only [moveSnowball, h0, if_true] at hnf
    cases hnf
  · have h0' : s.hasHit = false := by simpa using h0
    by_cases hg : (Vec3.addV s.position (Vec3.scaleV dt s.velocity)).y ≤ s.radius
    · exfalso
      simp only [moveSnowball, h0', Bool.false_eq_true, if_false, hg,
        if_true] at hnf
      rw [hitSnowball_hasHit] at hnf
      cases hnf
    · simp only [moveSnowball, h0', Bool.false_eq_true, if_false, hg,
        if_false] at hnf ⊢
      rw [checkSnowballPathCollision_snd_of_not_hit _ _ _ hnf]
      exact constrain_bounds _ _ _ hw hl

theorem updateSnowballs_snd_mem {dt : ℚ} {all : Registry}
    {sbs : List Snowball} :
    ∀ s' ∈ (updateSnowballs dt all sbs).2,
      ∃ s ∈ sbs, ∃ all', s' = (moveSnowball dt all' s).2 := by
  induction sbs generalizing all with
  | nil => intro s' hs'; cases hs'
  | cons s rest ih =>
    intro s' hs'
    rcases List.mem_cons.1 hs' with h | h
    · exact ⟨s, List.mem_cons_self .., all, h⟩
    · rcases ih s' h with ⟨s0, hs0, all', he⟩
      exact ⟨s0, List.mem_cons_of_mem _ hs0, all', he⟩

/-! ### Claim theorems -/

/-- C1: `takeDamage` is a complete no-op — in particular the victim's
health is unchanged — whenever the victim's position passes its own
safe-zone test (`is_in_sanctuary(agent.position, agent)`) immediately
before the call. -/
theorem takeDamage_noop_in_sanctuary (ps : Registry) (victimId : String)
    (damage : ℚ) (attackerId : String) (v : Player)
    (hv : getPlayerById ps victimId = some v)
    (hz : isPointInSafeZone v.position v = true) :
    takeDamage ps victimId damage attackerId = ps := by
  unfold takeDamage
  rw [hv]
  simp [isPlayerInSafeZone, hz]

/-- Witness for C1 at a concrete state: a player standing 3 units from
its igloo anchor (safe-zone radius 5) takes no damage from a 4-damage hit. -/
theorem takeDamage_noop_in_sanctuary_witness :
    getPlayerById [witnessPlayerC1] "p1" = some witnessPlayerC1 ∧
    isPointInSafeZone witnessPlayerC1.position witnessPlayerC1 = true ∧
    takeDamage [witnessPlayerC1] "p1" 4 "p2" = [witnessPlayerC1] := by
  have h1 : getPlayerById [witnessPlayerC1] "p1" = some witnessPlayerC1 := rfl
  have h2 : isPointInSafeZone witnessPlayerC1.position witnessPlayerC1 = true := by
    norm_num [isPointInSafeZone, witnessPlayerC1, mkPlayer, GC.SAFE_ZONE_RADIUS]
  exact ⟨h1, h2, takeDamage_noop_in_sanctuary _ _ _ _ _ h1 h2⟩

/-- C4: a projectile whose hit flag is set is terminal: the discrete
pass, the swept pass and the position update all leave the registry and
the snowball untouched, and setting the flag again is a no-op. -/
theorem terminal_hit_flag (s : Snowball) (all : Registry) (prev : Vec3)
    (dt : ℚ) (hs : s.hasHit = true) :
    processSnowballDiscrete all s = (all, s)
    ∧ checkSnowballPathCollision s prev all = (all, s)
    ∧ moveSnowball dt all s = (all, s)
    ∧ hitSnowball s = s
    ∧ (∀ s' : Snowball, hitSnowball (hitSnowball s') = hitSnowball s') := by
  refine ⟨?_, ?_, ?_, ?_, ?_⟩
  · simp [processSnowballDiscrete, hs]
  · simp [checkSnowballPathCollision, hs]
  · simp [moveSnowball, hs]
  · simp [hitSnowball, hs]
  · intro s'
    unfold hitSnowball
    by_cases h : s'.hasHit = true
    · simp [h]
    · simp [h]

/-- Witness for C4 at a concrete state: an already-hit snowball among a
one-player registry. -/
theorem terminal_hit_flag_witness :
    processSnowballDiscrete [cexD] hitSb = ([cexD], hitSb)
    ∧ checkSnowballPathCollision hitSb ⟨0, 0, 0⟩ [cexD] = ([cexD], hitSb)
    ∧ moveSnowball 1 [cexD] hitSb = ([cexD], hitSb)
    ∧ hitSnowball hitSb = hitSb
    ∧ (∀ s' : Snowball, hitSnowball (hitSnowball s') = hitSnowball s') :=
  terminal_hit_flag hitSb [cexD] ⟨0, 0, 0⟩ 1 rfl

/-- C7: `applyUpgrade` returns `false` and changes nothing exactly when
the diamond balance is below the stat cost or the stat level is at (or
above) its max; otherwise it returns `true`, deducts exactly the cost,
increments exactly that stat's level by one, and adds the stat's fixed
increment to exactly the corresponding attribute. -/
theorem applyUpgrade_spec (p : Player) (t : UpgradeType) :
    ((applyUpgrade p t).2 = false ↔
      (p.diamondCount < GC.upgradeCost t ∨
        GC.upgradeMaxLevel t ≤ p.upgrades.level t))
    ∧ ((applyUpgrade p t).2 = false → (applyUpgrade p t).1 = p)
    ∧ ((applyUpgrade p t).2 = true →
        (applyUpgrade p t).1.diamondCount = p.diamondCount - GC.upgradeCost t
        ∧ (applyUpgrade p t).1.upgrades.level t = p.upgrades.level t + 1
        ∧ (∀ t', t' ≠ t →
            (applyUpgrade p t).1.upgrades.level t' = p.upgrades.level t')
        ∧ upgradeAttr (applyUpgrade p t).1 t = upgradeAttr p t + GC.upgradeIncrement t
        ∧ (∀ t', t' ≠ t → upgradeAttr (applyUpgrade p t).1 t' = upgradeAttr p t')
        ∧ (applyUpgrade p t).1.health = p.health
        ∧ (applyUpgrade p t).1.score = p.score) := by
  by_cases h1 : p.diamondCount < GC.upgradeCost t
  · refine ⟨by simp [applyUpgrade, h1], fun _ => by simp [applyUpgrade, h1], fun hs => ?_⟩
    rw [applyUpgrade, if_pos h1] at hs
    cases hs
  · by_cases h2 : GC.upgradeMaxLevel t ≤ p.upgrades.level t
    · refine ⟨by simp [applyUpgrade, h1, h2], fun _ => by simp [applyUpgrade, h1, h2],
        fun hs => ?_⟩
      rw [applyUpgrade, if_neg h1, if_pos h2] at hs
      cases hs
    · refine ⟨by simp [applyUpgrade, h1, h2], fun hf => ?_, fun _ => ?_⟩
      · rw [applyUpgrade, if_neg h1, if_neg h2] at hf
        cases hf
      · rw [applyUpgrade, if_neg h1, if_neg h2]
        cases t <;>
          refine ⟨rfl, rfl, ?_, rfl, ?_, rfl, rfl⟩ <;>
            (intro t' ht'; cases t' <;>
              simp_all [Upgrades.level, Upgrades.setLevel, upgradeAttr])

/-- Witness for C7: a player with 3 diamonds buys a speed upgrade. -/
theorem applyUpgrade_spec_witness :
    ((applyUpgrade richP .speed).2 = false ↔
      (richP.diamondCount < GC.upgradeCost .speed ∨
        GC.upgradeMaxLevel .speed ≤ richP.upgrades.level .speed))
    ∧ ((applyUpgrade richP .speed).2 = false → (applyUpgrade richP .speed).1 = richP)
    ∧ ((applyUpgrade richP .speed).2 = true →
        (applyUpgrade richP .speed).1.diamondCount
          = richP.diamondCount - GC.upgradeCost .speed
        ∧ (applyUpgrade richP .speed).1.upgrades.level .speed
          = richP.upgrades.level .speed + 1
        ∧ (∀ t', t' ≠ .speed →
            (applyUpgrade richP .speed).1.upgrades.level t'
              = richP.upgrades.level t')
        ∧ upgradeAttr (applyUpgrade richP .speed).1 .speed
          = upgradeAttr richP .speed + GC.upgradeIncrement .speed
        ∧ (∀ t', t' ≠ .speed →
            upgradeAttr (applyUpgrade richP .speed).1 t' = upgradeAttr richP t')
        ∧ (applyUpgrade richP .speed).1.health = richP.health
        ∧ (applyUpgrade richP .speed).1.score = richP.score) :=
  applyUpgrade_spec richP .speed

/-- C2 counterexample: `canA` stands fully inside `canB`'s sanctuary
(distance 0 from `canB`'s anchor, radius 5) but outside its own, and
`canB`'s snowball still reduces `canA`'s health from 10 to 9 in the
discrete pass — another agent's sanctuary does not shield. -/
theorem sanctuary_any_owner_cex :
    isPointInSafeZone canA.position canB = true
    ∧ isPointInSafeZone canA.position canA = false
    ∧ canA.health = 10
    ∧ (checkSnowballPlayerCollisions [canA, canB] [canSb]).1.map Player.health
        = [9, 10] := by
  refine ⟨?_, ?_, ?_, ?_⟩
  · norm_num [isPointInSafeZone, canA, canB, mkPlayer, GC.SAFE_ZONE_RADIUS]
  · norm_num [isPointInSafeZone, canA, mkPlayer, GC.SAFE_ZONE_RADIUS]
  · norm_num [canA, mkPlayer, GC.INITIAL_HEALTH]
  · have h1 : ("A" : String) = "player" ↔ False := by simp
    have h2 : ("B" : String) = "player" ↔ False := by simp
    have h3 : ("B" : String) = "A" ↔ False := by simp
    have h4 : ("A" : String) = "B" ↔ False := by simp
    norm_num [checkSnowballPlayerCollisions, processSnowballDiscrete,
      snowballPlayersLoop, discreteHitCond, eligibleTarget, isPlayerInSafeZone,
      isPointInSafeZone, minCheckDistSq, checkPoints, effectiveCollisionThreshold,
      applySnowballHit, takeDamage, eliminate, getPlayerById, updateFirst,
      applyKnockback, hitSnowball, canA, canB, canSb, mkPlayer,
      GC.SAFE_ZONE_RADIUS, GC.KNOCKBACK_FORCE, GC.INITIAL_HEALTH,
      Vec3.distSq, Vec3.dotV, Vec3.subV, Vec3.addV, Vec3.scaleV,
      List.find?, min_def, h1, h2, h3, h4]

/-- C2 (amended): only an agent's own sanctuary shields it.  Pointwise
over the registry, any agent whose own safe-zone test holds keeps its
health through the whole discrete projectile pass and through any swept
path check. -/
theorem own_sanctuary_shields (all : Registry) (sbs : List Snowball)
    (s : Snowball) (prev : Vec3) :
    List.Forall₂ (fun p q => isPlayerInSafeZone p = true → q.health = p.health)
      all (checkSnowballPlayerCollisions all sbs).1
    ∧ List.Forall₂ (fun p q => isPlayerInSafeZone p = true → q.health = p.health)
      all (checkSnowballPathCollision s prev all).1 :=
  ⟨(forall₂_cp_checkSnowballPlayerCollisions all sbs).imp
      (fun _ _ h => h.2.2.2.2.2.2),
   (forall₂_cp_checkSnowballPathCollision s prev all).imp
      (fun _ _ h => h.2.2.2.2.2.2)⟩

/-- Witness for C2 (amended) at a concrete state: the sheltered player
of the C1 witness against `canB`'s snowball. -/
theorem own_sanctuary_shields_witness :
    List.Forall₂ (fun p q => isPlayerInSafeZone p = true → q.health = p.health)
      [witnessPlayerC1]
      (checkSnowballPlayerCollisions [witnessPlayerC1] [canSb]).1
    ∧ List.Forall₂ (fun p q => isPlayerInSafeZone p = true → q.health = p.health)
      [witnessPlayerC1]
      (checkSnowballPathCollision canSb ⟨0, 0, 0⟩ [witnessPlayerC1]).1 :=
  own_sanctuary_shields [witnessPlayerC1] [canSb] canSb ⟨0, 0, 0⟩

/-- C5 counterexample: no sphere-sphere overlap — the distance between
the snowball and `cexD` (3 units) exceeds the sum of radii (1.85) — yet
the discrete pass deals damage and marks the projectile hit, because the
source's threshold is `snowball.radius + player.radius * 5` for an AI
target. -/
theorem discrete_overlap_cex :
    (cexSb5.radius + cexD.radius) * (cexSb5.radius + cexD.radius)
      ≤ Vec3.distSq cexSb5.position cexD.position
    ∧ (processSnowballDiscrete [cexD] cexSb5).1.map Player.health = [9]
    ∧ (processSnowballDiscrete [cexD] cexSb5).2.hasHit = true
    ∧ cexD.health = 10 := by
  refine ⟨?_, ?_, ?_, ?_⟩
  · norm_num [cexSb5, cexD, mkPlayer, Vec3.distSq, Vec3.dotV, Vec3.subV]
  · have h1 : ("D" : String) = "player" ↔ False := by simp
    have h2 : ("E" : String) = "player" ↔ False := by simp
    have h3 : ("E" : String) = "D" ↔ False := by simp
    have h4 : ("D" : String) = "E" ↔ False := by simp
    norm_num [processSnowballDiscrete, snowballPlayersLoop, discreteHitCond,
      eligibleTarget, isPlayerInSafeZone, isPointInSafeZone, minCheckDistSq,
      checkPoints, effectiveCollisionThreshold, applySnowballHit, takeDamage,
      eliminate, getPlayerById, updateFirst, applyKnockback, hitSnowball,
      cexD, cexSb5, mkPlayer, GC.SAFE_ZONE_RADIUS, GC.KNOCKBACK_FORCE,
      GC.INITIAL_HEALTH, Vec3.distSq, Vec3.dotV, Vec3.subV, Vec3.addV,
      Vec3.scaleV, List.find?, min_def, h1, h2, h3, h4]
  · have h1 : ("D" : String) = "player" ↔ False := by simp
    have h2 : ("E" : String) = "player" ↔ False := by simp
    have h3 : ("E" : String) = "D" ↔ False := by simp
    norm_num [processSnowballDiscrete, snowballPlayersLoop, discreteHitCond,
      eligibleTarget, isPlayerInSafeZone, isPointInSafeZone, minCheckDistSq,
      checkPoints, effectiveCollisionThreshold, hitSnowball,
      cexD, cexSb5, mkPlayer, GC.SAFE_ZONE_RADIUS,
      Vec3.distSq, Vec3.dotV, Vec3.subV, min_def, h1, h2, h3]
  · norm_num [cexD, mkPlayer, GC.INITIAL_HEALTH]

/-- C5 (amended): in the discrete pass, for a live (non-hit) projectile,
damage, knockback and the hit flag are applied exactly when some
registered agent passes the source's guard (`discreteHitCond`: alive,
not the owner, not in its own safe zone, and minimum check-point
distance below the widened radius-multiplier threshold), the first such
agent in registration order wins, and no later agent is touched. -/
theorem discrete_pass_first_match (all : Registry) (s : Snowball)
    (hs : s.hasHit = false) :
    ((processSnowballDiscrete all s).2.hasHit = true ↔
      ∃ p ∈ all, discreteHitCond s p = true)
    ∧ ((∀ p ∈ all, discreteHitCond s p = false) →
        processSnowballDiscrete all s = (all, s))
    ∧ (∀ l1 p l2, all = l1 ++ p :: l2 →
        (∀ q ∈ l1, discreteHitCond s q = false) →
        discreteHitCond s p = true →
        processSnowballDiscrete all s
          = (applySnowballHit all p s s.position, hitSnowball s)) := by
  unfold processSnowballDiscrete
  rw [if_neg (by simp [hs])]
  refine ⟨snowballPlayersLoop_hasHit_iff hs,
    snowballPlayersLoop_of_forall_false, ?_⟩
  intro l1 p l2 hsplit h1 hp
  subst hsplit
  exact snowballPlayersLoop_of_first h1 hp

/-- Witness for C5 (amended) at a concrete input. -/
theorem discrete_pass_first_match_witness :
    ((processSnowballDiscrete [cexF] cexSb5).2.hasHit = true ↔
      ∃ p ∈ [cexF], discreteHitCond cexSb5 p = true)
    ∧ ((∀ p ∈ [cexF], discreteHitCond cexSb5 p = false) →
        processSnowballDiscrete [cexF] cexSb5 = ([cexF], cexSb5))
    ∧ (∀ l1 p l2, [cexF] = l1 ++ p :: l2 →
        (∀ q ∈ l1, discreteHitCond cexSb5 q = false) →
        discreteHitCond cexSb5 p = true →
        processSnowballDiscrete [cexF] cexSb5
          = (applySnowballHit [cexF] p cexSb5 cexSb5.position,
             hitSnowball cexSb5)) :=
  discrete_pass_first_match [cexF] cexSb5 rfl

/-- C6 counterexample: the swept pass does not clamp.  Player `cexF`
projects beyond the segment end (projection·length 3/2 > length² 1) and
sits within the claimed combined radius of the clamped closest point
(the segment end, which is the snowball's new position), yet the source
skips it and registers nothing. -/
theorem path_clamp_cex :
    Vec3.dotV (Vec3.subV cexF.position ⟨0, 0, 0⟩)
        (Vec3.subV cexSb6.position ⟨0, 0, 0⟩) = 3/2
    ∧ Vec3.dotV (Vec3.subV cexSb6.position ⟨0, 0, 0⟩)
        (Vec3.subV cexSb6.position ⟨0, 0, 0⟩) = 1
    ∧ Vec3.distSq cexF.position cexSb6.position
        < (cexSb6.radius + cexF.radius) * (cexSb6.radius + cexF.radius)
    ∧ checkSnowballPathCollision cexSb6 ⟨0, 0, 0⟩ [cexF] = ([cexF], cexSb6)
    ∧ cexF.health = 10 := by
  refine ⟨?_, ?_, ?_, ?_, ?_⟩
  · norm_num [cexF, cexSb6, mkPlayer, Vec3.dotV, Vec3.subV]
  · norm_num [cexSb6, Vec3.dotV, Vec3.subV]
  · norm_num [cexF, cexSb6, mkPlayer, Vec3.distSq, Vec3.dotV, Vec3.subV]
  · norm_num [checkSnowballPathCollision, pathPlayersLoop, pathHitCond,
      eligibleTarget, isPlayerInSafeZone, isPointInSafeZone,
      cexF, cexSb6, mkPlayer, Vec3.distSq, Vec3.dotV, Vec3.subV, Vec3.addV,
      Vec3.scaleV]
  · norm_num [cexF, mkPlayer, GC.INITIAL_HEALTH]

/-- C6 (amended): the swept pass projects each eligible agent onto the
frame segment but skips — rather than clamps — projections outside
`[0, segment length]`, and compares the point-to-segment distance
against `snowball.radius + player.radius * 4`, not the discrete pass's
threshold; within those rules it is first-match-wins. -/
theorem path_pass_spec (s : Snowball) (prev : Vec3) (all : Registry)
    (hs : s.hasHit = false) :
    (Vec3.dotV (Vec3.subV s.position prev) (Vec3.subV s.position prev) < 1/100 →
      checkSnowballPathCollision s prev all = (all, s))
    ∧ (¬ Vec3.dotV (Vec3.subV s.position prev) (Vec3.subV s.position prev) < 1/100 →
        (((checkSnowballPathCollision s prev all).2.hasHit = true ↔
          ∃ p ∈ all, pathHitCond s prev (Vec3.subV s.position prev)
            (Vec3.dotV (Vec3.subV s.position prev) (Vec3.subV s.position prev)) p
              = true)
        ∧ (∀ l1 p l2, all = l1 ++ p :: l2 →
            (∀ q ∈ l1, pathHitCond s prev (Vec3.subV s.position prev)
              (Vec3.dotV (Vec3.subV s.position prev) (Vec3.subV s.position prev)) q
                = false) →
            pathHitCond s prev (Vec3.subV s.position prev)
              (Vec3.dotV (Vec3.subV s.position prev) (Vec3.subV s.position prev)) p
                = true →
            checkSnowballPathCollision s prev all
              = (applySnowballHit all p s
                  (pathClosestPoint prev (Vec3.subV s.position prev)
                    (Vec3.dotV (Vec3.subV s.position prev)
                      (Vec3.subV s.position prev)) p),
                 hitSnowball s)))) := by
  constructor
  · intro hlen
    simp only [checkSnowballPathCollision, hs, Bool.false_eq_true, if_false]
    rw [if_pos hlen]
  · intro hlen
    constructor
    · simp only [checkSnowballPathCollision, hs, Bool.false_eq_true, if_false]
      rw [if_neg hlen]
      exact pathPlayersLoop_hasHit_iff hs
    · intro l1 p l2 hsplit h1 hp
      simp only [checkSnowballPathCollision, hs, Bool.false_eq_true, if_false]
      rw [if_neg hlen]
      subst hsplit
      exact pathPlayersLoop_of_first h1 hp

/-- Witness for C6 (amended) at a concrete input. -/
theorem path_pass_spec_witness :
    (Vec3.dotV (Vec3.subV cexSb6.position ⟨0, 0, 0⟩)
        (Vec3.subV cexSb6.position ⟨0, 0, 0⟩) < 1/100 →
      checkSnowballPathCollision cexSb6 ⟨0, 0, 0⟩ [cexF] = ([cexF], cexSb6))
    ∧ (¬ Vec3.dotV (Vec3.subV cexSb6.position ⟨0, 0, 0⟩)
          (Vec3.subV cexSb6.position ⟨0, 0, 0⟩) < 1/100 →
        (((checkSnowballPathCollision cexSb6 ⟨0, 0, 0⟩ [cexF]).2.hasHit = true ↔
          ∃ p ∈ [cexF], pathHitCond cexSb6 ⟨0, 0, 0⟩
            (Vec3.subV cexSb6.position ⟨0, 0, 0⟩)
            (Vec3.dotV (Vec3.subV cexSb6.position ⟨0, 0, 0⟩)
              (Vec3.subV cexSb6.position ⟨0, 0, 0⟩)) p = true)
        ∧ (∀ l1 p l2, [cexF] = l1 ++ p :: l2 →
            (∀ q ∈ l1, pathHitCond cexSb6 ⟨0, 0, 0⟩
              (Vec3.subV cexSb6.position ⟨0, 0, 0⟩)
              (Vec3.dotV (Vec3.subV cexSb6.position ⟨0, 0, 0⟩)
                (Vec3.subV cexSb6.position ⟨0, 0, 0⟩)) q = false) →
            pathHitCond cexSb6 ⟨0, 0, 0⟩
              (Vec3.subV cexSb6.position ⟨0, 0, 0⟩)
              (Vec3.dotV (Vec3.subV cexSb6.position ⟨0, 0, 0⟩)
                (Vec3.subV cexSb6.position ⟨0, 0, 0⟩)) p = true →
            checkSnowballPathCollision cexSb6 ⟨0, 0, 0⟩ [cexF]
              = (applySnowballHit [cexF] p cexSb6
                  (pathClosestPoint ⟨0, 0, 0⟩
                    (Vec3.subV cexSb6.position ⟨0, 0, 0⟩)
                    (Vec3.dotV (Vec3.subV cexSb6.position ⟨0, 0, 0⟩)
                      (Vec3.subV cexSb6.position ⟨0, 0, 0⟩)) p),
                 hitSnowball cexSb6)))) :=
  path_pass_spec cexSb6 ⟨0, 0, 0⟩ [cexF] rfl

/-- C3: health stays within `[0, H]` — in particular `takeDamage` clamps
at 0 — through `takeDamage` itself, the discrete collision pass and the
position update with its swept pass, whenever every incoming damage
value is nonnegative (the only code paths that write health). -/
theorem health_bounds (H dt : ℚ) :
    (∀ (ps : Registry) (vid : String) (dmg : ℚ) (atk : String), 0 ≤ dmg →
      (∀ p ∈ ps, HealthIn H p) → ∀ q ∈ takeDamage ps vid dmg atk, HealthIn H q)
    ∧ (∀ (all : Registry) (sbs : List Snowball), (∀ p ∈ all, HealthIn H p) →
        (∀ s ∈ sbs, 0 ≤ s.damage) →
        ∀ q ∈ (checkSnowballPlayerCollisions all sbs).1, HealthIn H q)
    ∧ (∀ (all : Registry) (sbs : List Snowball), (∀ p ∈ all, HealthIn H p) →
        (∀ s ∈ sbs, 0 ≤ s.damage) →
        ∀ q ∈ (updatePositions dt all sbs).1, HealthIn H q) :=
  ⟨fun _ _ _ _ hd hps => healthIn_takeDamage hd hps,
   fun _ _ hps hd => healthIn_checkSnowballPlayerCollisions hd hps,
   fun _ _ hps hd => healthIn_updatePositions hd hps⟩

/-- Witness for C3: a 1-health player hit for 3/2 damage stays inside
`[0, 10]` (the health is clamped at 0, not driven negative). -/
theorem health_bounds_witness :
    (0 : ℚ) ≤ 3/2 ∧
    List.Forall (HealthIn 10) (takeDamage [lowA] "A" (3/2) "B") := by
  refine ⟨by norm_num, List.forall_iff_forall_mem.2 ?_⟩
  refine (health_bounds 10 1).1 [lowA] "A" (3/2) "B" (by norm_num) ?_
  intro p hp
  rw [List.mem_singleton] at hp
  subst hp
  constructor <;> norm_num [lowA, mkPlayer, GC.INITIAL_HEALTH]

/-- C8 counterexample: the attacker (`deadB`) is registered but already
not alive, and still receives the elimination bonus when its old
snowball's damage eliminates `lowA` — the source checks only that the
attacker id resolves, not that the attacker is alive. -/
theorem dead_attacker_scores_cex :
    deadB.isAlive = false
    ∧ deadB.score = 0
    ∧ lowA.health = 1
    ∧ (takeDamage [lowA, deadB] "A" 1 "B").map Player.score = [0, 100]
    ∧ (takeDamage [lowA, deadB] "A" 1 "B").map Player.isAlive
        = [false, false] := by
  have h1 : ("A" : String) = "B" ↔ False := by simp
  have h2 : ("B" : String) = "A" ↔ False := by simp
  have b1 : (("A" : String) == "B") = false := rfl
  have b2 : (("B" : String) == "A") = false := rfl
  have b3 : (("A" : String) == "A") = true := rfl
  have b4 : (("B" : String) == "B") = true := rfl
  refine ⟨rfl, ?_, ?_, ?_, ?_⟩
  · norm_num [deadB, mkPlayer]
  · norm_num [lowA, mkPlayer]
  · norm_num [takeDamage, eliminate, getPlayerById, updateFirst,
      isPlayerInSafeZone, isPointInSafeZone, applyKnockback,
      lowA, deadB, mkPlayer, GC.ELIMINATION_POINTS, List.find?,
      h1, h2, b1, b2, b3, b4]
  · norm_num [takeDamage, eliminate, getPlayerById, updateFirst,
      isPlayerInSafeZone, isPointInSafeZone, applyKnockback,
      lowA, deadB, mkPlayer, GC.ELIMINATION_POINTS, List.find?,
      h1, h2, b1, b2, b3, b4]

/-- C8 (amended): a lethal unsheltered hit clamps the victim's health to
exactly 0 and clears its alive flag, and adds the elimination bonus to
the attacker's score if and only if the attacker id still resolves in
the registry — regardless of whether that attacker is alive. -/
theorem lethal_hit_spec (ps : Registry) (vid : String) (dmg : ℚ)
    (atk : String) (v : Player) (hv : getPlayerById ps vid = some v)
    (hz : isPlayerInSafeZone v = false) (hle : v.health - dmg ≤ 0)
    (hne : vid ≠ atk) :
    getPlayerById (takeDamage ps vid dmg atk) vid
      = some { v with health := 0, isAlive := false }
    ∧ (∀ a, getPlayerById ps atk = some a →
        getPlayerById (takeDamage ps vid dmg atk) atk
          = some { a with score := a.score + GC.ELIMINATION_POINTS })
    ∧ (getPlayerById ps atk = none →
        (takeDamage ps vid dmg atk).map Player.score = ps.map Player.score) := by
  have hstep : takeDamage ps vid dmg atk
      = eliminate (updateFirst ps vid (fun p => { p with health := 0 }))
          vid atk := by
    unfold takeDamage
    rw [hv]
    simp [hz, hle]
  have hfind1 : getPlayerById
      (updateFirst ps vid (fun p => { p with health := 0 })) vid
        = some { v with health := 0 } := by
    rw [getPlayerById_updateFirst_self (fun p => { p with health := 0 })
      (fun p => rfl), hv]
    rfl
  have hfind2 : getPlayerById
      (updateFirst (updateFirst ps vid (fun p => { p with health := 0 }))
        vid (fun w => { w with isAlive := false })) vid
      = some { v with health := 0, isAlive := false } := by
    rw [getPlayerById_updateFirst_self (fun w => { w with isAlive := false })
      (fun p => rfl), hfind1]
    rfl
  have hatk2 : getPlayerById
      (updateFirst (updateFirst ps vid (fun p => { p with health := 0 }))
        vid (fun w => { w with isAlive := false })) atk
      = getPlayerById ps atk := by
    rw [getPlayerById_updateFirst_ne (fun w => { w with isAlive := false })
        (fun p => rfl) hne.symm,
      getPlayerById_updateFirst_ne (fun p => { p with health := 0 })
        (fun p => rfl) hne.symm]
  cases hatk : getPlayerById ps atk with
  | some a =>
    have helim : takeDamage ps vid dmg atk
        = updateFirst
            (updateFirst (updateFirst ps vid (fun p => { p with health := 0 }))
              vid (fun w => { w with isAlive := false }))
            atk (fun b => { b with score := b.score + GC.ELIMINATION_POINTS }) := by
      rw [hstep]
      simp only [eliminate]
      rw [hatk2, hatk]
    rw [helim]
    refine ⟨?_, ?_, ?_⟩
    · rw [getPlayerById_updateFirst_ne
          (fun b => { b with score := b.score + GC.ELIMINATION_POINTS })
          (fun p => rfl) hne, hfind2]
    · intro a' ha'
      have haa : a = a' := Option.some.inj ha'
      subst haa
      rw [getPlayerById_updateFirst_self
        (fun b => { b with score := b.score + GC.ELIMINATION_POINTS })
        (fun p => rfl), hatk2, hatk]
      rfl
    · intro hnone
      exact Option.noConfusion hnone
  | none =>
    have helim : takeDamage ps vid dmg atk
        = updateFirst (updateFirst ps vid (fun p => { p with health := 0 }))
            vid (fun w => { w with isAlive := false }) := by
      rw [hstep]
      simp only [eliminate]
      rw [hatk2, hatk]
    rw [helim]
    refine ⟨hfind2, ?_, ?_⟩
    · intro a' ha'
      exact Option.noConfusion ha'
    · intro _
      rw [map_updateFirst_of_preserve (fun w => { w with isAlive := false })
          Player.score (fun p => rfl),
        map_updateFirst_of_preserve (fun p => { p with health := 0 })
          Player.score (fun p => rfl)]

/-- Witness for C8 (amended): `lowA` (health 1) eliminated by a living
attacker `canB`; the attacker exists, so its score grows by 100. -/
theorem lethal_hit_spec_witness :
    getPlayerById (takeDamage [lowA, canB] "A" 1 "B") "A"
      = some { lowA with health := 0, isAlive := false }
    ∧ (∀ a, getPlayerById [lowA, canB] "B" = some a →
        getPlayerById (takeDamage [lowA, canB] "A" 1 "B") "B"
          = some { a with score := a.score + GC.ELIMINATION_POINTS })
    ∧ (getPlayerById [lowA, canB] "B" = none →
        (takeDamage [lowA, canB] "A" 1 "B").map Player.score
          = [lowA, canB].map Player.score) := by
  refine lethal_hit_spec [lowA, canB] "A" 1 "B" lowA rfl ?_ ?_ (by simp)
  · norm_num [isPlayerInSafeZone, isPointInSafeZone, lowA, mkPlayer]
  · norm_num [lowA, mkPlayer]

/-- C9 counterexample: travel budget 15 at speed 15 with dt = 1/30 gives
`ceil(D/S/dt) = 30`, but after 30 unobstructed ticks the snowball is
still less than 15 units of straight-line distance from its spawn (air
resistance decays the horizontal speed every tick) and is not removed
(it goes on to be removed only at tick 33). -/
theorem distance_budget_ceil_cex :
    Int.ceil (flightSb.maxDistance / 15 / (1/30)) = 30
    ∧ flightSb.velocity = ⟨15, 0, 0⟩
    ∧ (flightRun (1/30) ⟨flightSb, false⟩ 30).removed = false := by
  refine ⟨by norm_num [flightSb], rfl, ?_⟩
  norm_num [flightRun, flightTick, applyGravitySnowball, moveSnowball,
    checkSnowballPathCollision, pathPlayersLoop, snowballUpdate,
    constrainToMapBoundaries, hitSnowball, flightSb,
    GC.PHYSICS_GRAVITY, GC.AIR_RESISTANCE, GC.MAP_WIDTH, GC.MAP_LENGTH,
    Vec3.addV, Vec3.scaleV, Vec3.subV, Vec3.dotV, Vec3.distSq]

/-- C9 (amended): a live (non-hit) snowball is removed by
`snowball.update` in a tick exactly when its lifetime has expired or the
straight-line distance from its spawn position exceeds its travel
budget at that tick's check; the `ceil(D/S/dt)` bound does not hold
because air resistance decays the horizontal velocity each tick. -/
theorem snowball_update_removal (dt : ℚ) (s : Snowball)
    (hs : s.hasHit = false) :
    (snowballUpdate dt s).2 = true ↔
      (s.lifetime < s.elapsedMs + dt * 1000 ∨
        s.maxDistance * s.maxDistance
          < Vec3.distSq s.position s.initialPosition) := by
  unfold snowballUpdate
  rw [if_neg (by simp [hs])]
  by_cases hl : s.lifetime < s.elapsedMs + dt * 1000
  · simp [hl]
  · simp [hl]

/-- Witness for C9 (amended): a snowball 16 units from its spawn with
budget 15 is removed on its next update. -/
theorem snowball_update_removal_witness :
    (snowballUpdate (1/10) farSb).2 = true :=
  (snowball_update_removal (1/10) farSb rfl).2
    (Or.inr (by norm_num [farSb, flightSb, Vec3.distSq, Vec3.dotV, Vec3.subV]))

/-- C10: after a position update every player, and every projectile
whose hit flag is still clear, lies inside the arena rectangle shrunk by
its radius on both horizontal axes — the clamp is unconditional,
independent of wall bodies — and whenever a clamp engages on an axis the
corresponding velocity component is set to 0. -/
theorem map_boundary_clamp (dt : ℚ) (all : Registry) (sbs : List Snowball)
    (hp : ∀ p ∈ all, p.radius ≤ GC.MAP_WIDTH / 2 ∧ p.radius ≤ GC.MAP_LENGTH / 2)
    (hsb : ∀ s ∈ sbs, s.radius ≤ GC.MAP_WIDTH / 2 ∧ s.radius ≤ GC.MAP_LENGTH / 2) :
    (∀ q ∈ (updatePositions dt all sbs).1,
      -(GC.MAP_WIDTH / 2) + q.radius ≤ q.position.x
      ∧ q.position.x ≤ GC.MAP_WIDTH / 2 - q.radius
      ∧ -(GC.MAP_LENGTH / 2) + q.radius ≤ q.position.z
      ∧ q.position.z ≤ GC.MAP_LENGTH / 2 - q.radius)
    ∧ (∀ s' ∈ (updatePositions dt all sbs).2, s'.hasHit = false →
        -(GC.MAP_WIDTH / 2) + s'.radius ≤ s'.position.x
        ∧ s'.position.x ≤ GC.MAP_WIDTH / 2 - s'.radius
        ∧ -(GC.MAP_LENGTH / 2) + s'.radius ≤ s'.position.z
        ∧ s'.position.z ≤ GC.MAP_LENGTH / 2 - s'.radius)
    ∧ (∀ (pos vel : Vec3) (r : ℚ),
        (pos.x < -(GC.MAP_WIDTH / 2) + r →
          (constrainToMapBoundaries pos vel r).1.x = -(GC.MAP_WIDTH / 2) + r
          ∧ (constrainToMapBoundaries pos vel r).2.x = 0)
        ∧ (¬ pos.x < -(GC.MAP_WIDTH / 2) + r → GC.MAP_WIDTH / 2 - r < pos.x →
          (constrainToMapBoundaries pos vel r).1.x = GC.MAP_WIDTH / 2 - r
          ∧ (constrainToMapBoundaries pos vel r).2.x = 0)
        ∧ (pos.z < -(GC.MAP_LENGTH / 2) + r →
          (constrainToMapBoundaries pos vel r).1.z = -(GC.MAP_LENGTH / 2) + r
          ∧ (constrainToMapBoundaries pos vel r).2.z = 0)
        ∧ (¬ pos.z < -(GC.MAP_LENGTH / 2) + r → GC.MAP_LENGTH / 2 - r < pos.z →
          (constrainToMapBoundaries pos vel r).1.z = GC.MAP_LENGTH / 2 - r
          ∧ (constrainToMapBoundaries pos vel r).2.z = 0)) := by
  refine ⟨?_, ?_, constrain_velocity_zero⟩
  · intro q hq
    rcases forall₂_cp_pos_radius
        (forall₂_cp_updateSnowballs dt (all.map (movePlayer dt)) sbs) q hq
      with ⟨p, hpmem, hpos, hrad⟩
    rcases List.mem_map.1 hpmem with ⟨p0, hp0, rfl⟩
    have hb := movePlayer_bounds dt p0 (hp p0 hp0).1 (hp p0 hp0).2
    rw [hpos, hrad, movePlayer_radius]
    exact hb
  · intro s' hs' hnf
    rcases updateSnowballs_snd_mem s' hs' with ⟨s0, hs0, all', rfl⟩
    exact moveSnowball_snd_bounds dt all' s0 (hsb s0 hs0).1 (hsb s0 hs0).2 hnf

/-- Witness for C10: a player parked at x = 100 is clamped back to
x = 38.5 (= 40 − radius 1.5) by the tick's position update. -/
theorem map_boundary_clamp_witness :
    -(GC.MAP_WIDTH / 2) + (movePlayer 1 wanderer).radius
      ≤ (movePlayer 1 wanderer).position.x
    ∧ (movePlayer 1 wanderer).position.x
      ≤ GC.MAP_WIDTH / 2 - (movePlayer 1 wanderer).radius
    ∧ -(GC.MAP_LENGTH / 2) + (movePlayer 1 wanderer).radius
      ≤ (movePlayer 1 wanderer).position.z
    ∧ (movePlayer 1 wanderer).position.z
      ≤ GC.MAP_LENGTH / 2 - (movePlayer 1 wanderer).radius := by
  have hmem : movePlayer 1 wanderer ∈ (updatePositions 1 [wanderer] []).1 :=
    List.mem_singleton.mpr rfl
  have h := (map_boundary_clamp 1 [wanderer] []
    (by
      intro p hpm
      rw [List.mem_singleton] at hpm
      subst hpm
      constructor <;> norm_num [wanderer, mkPlayer, GC.MAP_WIDTH, GC.MAP_LENGTH])
    (by intro s hsm; cases hsm)).1
  exact h (movePlayer 1 wanderer) hmem

end SnowBrawl
